import Mathlib

/-!
Shallow embedding of the `fhir_x_synthea` converters (Python) and proofs of
the specification claims about them.

Conventions of the embedding:
* Python `None` is `Option.none`; a Python string field read through
  `dict.get(k, "")` on a dict produced with `exclude_none=True` is modelled
  as an `Option String` field read with a default of `""`.
* Python truthiness of a string (`if s:`) is `s ≠ ""`.
* `datetime.date` / `datetime.datetime` values are modelled by explicit
  `Date` / `PyDateTime` structures; `datetime.fromisoformat` is modelled by
  an executable parser `fromisoformat` covering the dashed ISO-8601 grammar
  the converters exchange (`YYYY-MM-DD[{T| }HH:MM[:SS[.f{1..6}]][±HH:MM]]`).
* Python `Decimal`/`float` numeric fields are modelled as `Rat`.
-/

namespace FXS

/-! ## Python string primitives -/

/-- Python whitespace, as removed by `str.strip()`. -/
def isPySpace (c : Char) : Bool :=
  c = ' ' ∨ c = '\t' ∨ c = '\n' ∨ c = '\r' ∨ c = '\x0b' ∨ c = '\x0c'

/-- Python `str.strip()`: drop leading and trailing whitespace. -/
def pyStrip (s : String) : String :=
  ⟨((s.data.dropWhile isPySpace).reverse.dropWhile isPySpace).reverse⟩

/-- Python `str.lower()` (character-wise). -/
def pyLower (s : String) : String := ⟨s.data.map Char.toLower⟩

/-- Python `str.upper()` (character-wise). -/
def pyUpper (s : String) : String := ⟨s.data.map Char.toUpper⟩

/-- Python `str.capitalize()`: first character upper-cased, rest lowered. -/
def pyCapitalize (s : String) : String :=
  match s.data with
  | [] => ""
  | c :: cs => ⟨Char.toUpper c :: cs.map Char.toLower⟩

/-- `utils.to_str`: convert an optional value to a stripped string
(`""` for `None`). -/
def to_str : Option String → String
  | none => ""
  | some s => pyStrip s

/-- A character is an ASCII decimal digit. -/
def isDig (c : Char) : Bool := c.isDigit

/-- Numeric value of an ASCII digit character. -/
def digitVal (c : Char) : Nat := c.toNat - 48

/-- The ASCII digit character for `n` (callers only pass `n < 10`). -/
def digitChar : Nat → Char
  | 0 => '0' | 1 => '1' | 2 => '2' | 3 => '3' | 4 => '4'
  | 5 => '5' | 6 => '6' | 7 => '7' | 8 => '8' | _ => '9'

/-- Two-digit zero-padded decimal rendering (Python `%02d` for `n < 100`). -/
def pad2 (n : Nat) : List Char := [digitChar (n / 10 % 10), digitChar (n % 10)]

/-- Four-digit zero-padded decimal rendering. -/
def pad4 (n : Nat) : List Char :=
  [digitChar (n / 1000 % 10), digitChar (n / 100 % 10),
   digitChar (n / 10 % 10), digitChar (n % 10)]

/-- Six-digit zero-padded decimal rendering (microseconds). -/
def pad6 (n : Nat) : List Char :=
  [digitChar (n / 100000 % 10), digitChar (n / 10000 % 10),
   digitChar (n / 1000 % 10), digitChar (n / 100 % 10),
   digitChar (n / 10 % 10), digitChar (n % 10)]

/-- Parse exactly two ASCII digits. -/
def parse2 : List Char → Option (Nat × List Char)
  | a :: b :: rest =>
    if isDig a && isDig b then some (10 * digitVal a + digitVal b, rest) else none
  | _ => none

/-- Parse exactly four ASCII digits. -/
def parse4 : List Char → Option (Nat × List Char)
  | a :: b :: c :: d :: rest =>
    if isDig a && isDig b && isDig c && isDig d then
      some (1000 * digitVal a + 100 * digitVal b + 10 * digitVal c + digitVal d, rest)
    else none
  | _ => none

/-! ## Dates and datetimes (model of Python `datetime`) -/

/-- A calendar date (Python `datetime.date`). -/
structure Date where
  year : Nat
  month : Nat
  day : Nat
deriving DecidableEq, Repr

/-- Gregorian leap year. -/
def isLeap (y : Nat) : Bool := (y % 4 == 0 && y % 100 != 0) || y % 400 == 0

/-- Days in a month. -/
def daysInMonth (y m : Nat) : Nat :=
  if m = 2 then (if isLeap y then 29 else 28)
  else if m = 4 ∨ m = 6 ∨ m = 9 ∨ m = 11 then 30
  else 31

/-- Validity of a date, as enforced by Python's `datetime.date`. -/
def Date.validB (d : Date) : Bool :=
  1 ≤ d.year && d.year ≤ 9999 && 1 ≤ d.month && d.month ≤ 12 &&
    1 ≤ d.day && d.day ≤ daysInMonth d.year d.month

/-- A time of day (Python `datetime.time`, microsecond resolution). -/
structure Time where
  hour : Nat
  minute : Nat
  second : Nat
  micro : Nat
deriving DecidableEq, Repr

def Time.validB (t : Time) : Bool :=
  t.hour < 24 && t.minute < 60 && t.second < 60 && t.micro < 1000000

/-- Midnight. -/
def midnight : Time := ⟨0, 0, 0, 0⟩

/-- A Python `datetime.datetime`: date, time, and an optional fixed UTC
offset in minutes (`none` models a naive datetime, `tzinfo is None`). -/
structure PyDateTime where
  date : Date
  time : Time
  offset : Option Int
deriving DecidableEq, Repr

/-- `date.isoformat()` as a character list: `YYYY-MM-DD`. -/
def printDateL (d : Date) : List Char :=
  pad4 d.year ++ '-' :: (pad2 d.month ++ '-' :: pad2 d.day)

/-- `date.isoformat()`. -/
def printDate (d : Date) : String := ⟨printDateL d⟩

/-- Time part of `datetime.isoformat()`: `HH:MM:SS[.ffffff]`. -/
def printTimeL (t : Time) : List Char :=
  pad2 t.hour ++ ':' :: (pad2 t.minute ++ ':' :: (pad2 t.second ++
    (if t.micro = 0 then [] else '.' :: pad6 t.micro)))

/-- UTC-offset rendering `±HH:MM` used by `datetime.isoformat()`. -/
def printOffsetL (o : Int) : List Char :=
  (if o < 0 then '-' else '+') :: (pad2 (o.natAbs / 60) ++ ':' :: pad2 (o.natAbs % 60))

/-- `datetime.isoformat()` as a character list. -/
def isoformatL (dt : PyDateTime) : List Char :=
  printDateL dt.date ++ 'T' :: (printTimeL dt.time ++
    (match dt.offset with
     | none => []
     | some o => printOffsetL o))

/-- `datetime.isoformat()`. -/
def isoformat (dt : PyDateTime) : String := ⟨isoformatL dt⟩

/-- Parse the dashed date `YYYY-MM-DD` (prefix of the input). -/
def parseDateL (cs : List Char) : Option (Date × List Char) :=
  match parse4 cs with
  | none => none
  | some (y, cs1) =>
    match cs1 with
    | '-' :: cs2 =>
      (match parse2 cs2 with
       | none => none
       | some (m, cs3) =>
         match cs3 with
         | '-' :: cs4 =>
           (match parse2 cs4 with
            | none => none
            | some (dd, cs5) =>
              if (⟨y, m, dd⟩ : Date).validB then some (⟨y, m, dd⟩, cs5)
              else none)
         | _ => none)
    | _ => none

/-- Value of a fractional-seconds digit string, scaled to microseconds. -/
def fracValue (ds : List Char) : Nat :=
  (ds.foldl (fun a c => a * 10 + digitVal c) 0) * 10 ^ (6 - ds.length)

/-- Parse the time-of-day part `HH:MM[:SS[.f{1..6}]]` (prefix of the input). -/
def parseTimeL (cs : List Char) : Option (Time × List Char) :=
  match parse2 cs with
  | none => none
  | some (h, cs1) =>
    match cs1 with
    | ':' :: cs2 =>
      (match parse2 cs2 with
       | none => none
       | some (mi, cs3) =>
         match cs3 with
         | ':' :: cs4 =>
           (match parse2 cs4 with
            | none => none
            | some (s, cs5) =>
              match cs5 with
              | '.' :: cs6 =>
                let ds := cs6.takeWhile isDig
                let rest := cs6.dropWhile isDig
                if 1 ≤ ds.length ∧ ds.length ≤ 6 then
                  some (⟨h, mi, s, fracValue ds⟩, rest)
                else none
              | _ => some (⟨h, mi, s, 0⟩, cs5))
         | _ => some (⟨h, mi, 0, 0⟩, cs3))
    | _ => none

/-- Parse a trailing UTC offset `±HH:MM` (must consume the whole input). -/
def parseOffsetL : List Char → Option Int
  | sign :: cs =>
    if sign = '+' ∨ sign = '-' then
      match parse2 cs with
      | some (h, ':' :: cs1) =>
        (match parse2 cs1 with
         | some (m, []) =>
           if h < 24 ∧ m < 60 then
             some (if sign = '-' then -((h : Int) * 60 + m) else (h : Int) * 60 + m)
           else none
         | _ => none)
      | _ => none
    else none
  | [] => none

/-- Model of Python 3.11 `datetime.fromisoformat` on the dashed grammar the
converters exchange. -/
def fromisoformatL (cs : List Char) : Option PyDateTime :=
  match parseDateL cs with
  | none => none
  | some (d, rest) =>
    match rest with
    | [] => some ⟨d, midnight, none⟩
    | sep :: rest1 =>
      if sep = 'T' ∨ sep = ' ' then
        match parseTimeL rest1 with
        | none => none
        | some (t, rest2) =>
          if t.validB then
            match rest2 with
            | [] => some ⟨d, t, none⟩
            | _ =>
              (match parseOffsetL rest2 with
               | none => none
               | some o => some ⟨d, t, some o⟩)
          else none
      else none

/-- `datetime.fromisoformat` on strings. -/
def fromisoformat (s : String) : Option PyDateTime := fromisoformatL s.data

/-- `str.replace("Z", "+00:00")` at character level (single-char pattern). -/
def replaceZL : List Char → List Char
  | [] => []
  | c :: cs =>
    if c = 'Z' then '+' :: '0' :: '0' :: ':' :: '0' :: '0' :: replaceZL cs
    else c :: replaceZL cs

/-- `s.replace("Z", "+00:00")`. -/
def replaceZ (s : String) : String := ⟨replaceZL s.data⟩

/-- Python `datetime.date.fromisoformat` (dashed form). -/
def date_fromisoformat (s : String) : Option Date :=
  match parseDateL s.data with
  | some (d, []) => some d
  | _ => none

/-! ## Print/parse inverse lemmas -/

theorem digitVal_digitChar : ∀ n, n < 10 → digitVal (digitChar n) = n := by decide

theorem isDig_digitChar : ∀ n, n < 10 → isDig (digitChar n) = true := by decide

theorem digitChar_ne_reserved : ∀ n, digitChar n ≠ 'Z' ∧ digitChar n ≠ '-' ∧
    digitChar n ≠ ':' ∧ digitChar n ≠ 'T' := by
  intro n
  unfold digitChar
  split <;> exact ⟨by decide, by decide, by decide, by decide⟩

theorem parse2_pad2 (n : Nat) (rest : List Char) :
    parse2 (pad2 n ++ rest) = some (n % 100, rest) := by
  have h1 : n / 10 % 10 < 10 := Nat.mod_lt _ (by norm_num)
  have h2 : n % 10 < 10 := Nat.mod_lt _ (by norm_num)
  simp only [pad2, List.cons_append, List.nil_append, parse2,
    isDig_digitChar _ h1, isDig_digitChar _ h2, Bool.and_self, if_pos rfl,
    digitVal_digitChar _ h1, digitVal_digitChar _ h2]
  norm_num
  omega

theorem parse4_pad4 (n : Nat) (rest : List Char) :
    parse4 (pad4 n ++ rest) = some (n % 10000, rest) := by
  have h1 : n / 1000 % 10 < 10 := Nat.mod_lt _ (by norm_num)
  have h2 : n / 100 % 10 < 10 := Nat.mod_lt _ (by norm_num)
  have h3 : n / 10 % 10 < 10 := Nat.mod_lt _ (by norm_num)
  have h4 : n % 10 < 10 := Nat.mod_lt _ (by norm_num)
  simp only [pad4, List.cons_append, List.nil_append, parse4,
    isDig_digitChar _ h1, isDig_digitChar _ h2, isDig_digitChar _ h3,
    isDig_digitChar _ h4, Bool.and_self, if_pos rfl,
    digitVal_digitChar _ h1, digitVal_digitChar _ h2,
    digitVal_digitChar _ h3, digitVal_digitChar _ h4]
  norm_num
  omega

theorem parseDateL_print (d : Date) (hv : d.validB = true) (rest : List Char) :
    parseDateL (printDateL d ++ rest) = some (d, rest) := by
  obtain ⟨y, m, dd⟩ := d
  simp only [Date.validB, Bool.and_eq_true, decide_eq_true_eq] at hv
  obtain ⟨⟨⟨⟨⟨hy1, hy2⟩, hm1⟩, hm2⟩, hd1⟩, hd2⟩ := hv
  have hy : y % 10000 = y := Nat.mod_eq_of_lt (by omega)
  have hm : m % 100 = m := Nat.mod_eq_of_lt (by omega)
  have hdd : dd % 100 = dd := by
    have : daysInMonth y m ≤ 31 := by
      simp only [daysInMonth]
      split
      · split <;> omega
      · split <;> omega
    exact Nat.mod_eq_of_lt (by omega)
  simp only [printDateL, List.append_assoc, List.cons_append, parseDateL,
    parse4_pad4, hy, parse2_pad2, hm, hdd]
  have hv2 : Date.validB ⟨y, m, dd⟩ = true := by
    simp only [Date.validB, Bool.and_eq_true, decide_eq_true_eq]
    omega
  simp [hv2]

theorem pad2_digits (n : Nat) : ∀ c ∈ pad2 n, ∃ k, c = digitChar k := by
  intro c hc
  simp only [pad2, List.mem_cons, List.not_mem_nil, or_false] at hc
  rcases hc with rfl | rfl
  · exact ⟨_, rfl⟩
  · exact ⟨_, rfl⟩

theorem pad4_digits (n : Nat) : ∀ c ∈ pad4 n, ∃ k, c = digitChar k := by
  intro c hc
  simp only [pad4, List.mem_cons, List.not_mem_nil, or_false] at hc
  rcases hc with rfl | rfl | rfl | rfl
  · exact ⟨_, rfl⟩
  · exact ⟨_, rfl⟩
  · exact ⟨_, rfl⟩
  · exact ⟨_, rfl⟩

theorem printDateL_ne_Z (d : Date) : ∀ c ∈ printDateL d, c ≠ 'Z' := by
  intro c hc
  simp only [printDateL, List.mem_append, List.mem_cons] at hc
  rcases hc with h | rfl | h | rfl | h
  · obtain ⟨k, rfl⟩ := pad4_digits _ _ h
    exact (digitChar_ne_reserved k).1
  · decide
  · obtain ⟨k, rfl⟩ := pad2_digits _ _ h
    exact (digitChar_ne_reserved k).1
  · decide
  · obtain ⟨k, rfl⟩ := pad2_digits _ _ h
    exact (digitChar_ne_reserved k).1

theorem replaceZL_of_noZ (cs : List Char) (h : ∀ c ∈ cs, c ≠ 'Z') :
    replaceZL cs = cs := by
  induction cs with
  | nil => rfl
  | cons c cs ih =>
    have hc : c ≠ 'Z' := h c (List.mem_cons_self c cs)
    simp only [replaceZL, if_neg hc]
    exact congrArg (c :: ·) (ih fun x hx => h x (List.mem_cons_of_mem c hx))

/-- Parsing the printed date, alone, recovers the date. -/
theorem fromisoformatL_printDateL (d : Date) (hv : d.validB = true) :
    fromisoformatL (printDateL d) = some ⟨d, midnight, none⟩ := by
  have := parseDateL_print d hv []
  simp only [List.append_nil] at this
  simp [fromisoformatL, this]

/-- The midnight-UTC tail printed by `format_datetime` for a date-only input. -/
def utcMidnightTail : List Char := 'T' :: ("00:00:00+00:00".data)

/-- Parsing a printed date followed by the midnight-UTC tail yields the date
at midnight with offset zero. -/
theorem fromisoformatL_print_utc (d : Date) (hv : d.validB = true) :
    fromisoformatL (printDateL d ++ utcMidnightTail) =
      some ⟨d, midnight, some 0⟩ := by
  unfold fromisoformatL
  rw [parseDateL_print d hv]
  rfl

theorem dropWhile_eq_self_of_all (p : Char → Bool) (l : List Char)
    (h : ∀ c ∈ l, p c = false) : l.dropWhile p = l := by
  cases l with
  | nil => rfl
  | cons c cs =>
    rw [List.dropWhile_cons, h c (List.mem_cons_self c cs)]
    simp

/-- Stripping a string with no whitespace characters is the identity. -/
theorem pyStrip_of_clean (s : String)
    (h : ∀ c ∈ s.data, isPySpace c = false) : pyStrip s = s := by
  unfold pyStrip
  rw [dropWhile_eq_self_of_all _ _ h,
    dropWhile_eq_self_of_all _ _ (fun c hc => h c (List.mem_reverse.mp hc)),
    List.reverse_reverse]

theorem isDig_total : ∀ n, isDig (digitChar n) = true := by
  intro n
  unfold digitChar
  split <;> decide

theorem isDig_not_space (c : Char) (h : isDig c = true) :
    isPySpace c = false := by
  by_contra hc
  rw [Bool.not_eq_false] at hc
  simp only [isPySpace, decide_eq_true_eq] at hc
  rcases hc with rfl | rfl | rfl | rfl | rfl | rfl <;> simp [isDig] at h

theorem printDateL_clean (d : Date) :
    ∀ c ∈ printDateL d, isPySpace c = false := by
  intro c hc
  simp only [printDateL, List.mem_append, List.mem_cons] at hc
  rcases hc with h | rfl | h | rfl | h
  · obtain ⟨k, rfl⟩ := pad4_digits _ _ h
    exact isDig_not_space _ (isDig_total k)
  · decide
  · obtain ⟨k, rfl⟩ := pad2_digits _ _ h
    exact isDig_not_space _ (isDig_total k)
  · decide
  · obtain ⟨k, rfl⟩ := pad2_digits _ _ h
    exact isDig_not_space _ (isDig_total k)

theorem replaceZL_append (a b : List Char) :
    replaceZL (a ++ b) = replaceZL a ++ replaceZL b := by
  induction a with
  | nil => rfl
  | cons c cs ih =>
    simp only [List.cons_append, replaceZL]
    split <;> simp [ih]

/-- `(⟨l⟩ : String) = ""` iff the character list is empty. -/
theorem mk_eq_empty_iff (l : List Char) : (⟨l⟩ : String) = "" ↔ l = [] := by
  constructor
  · intro h
    exact congrArg String.data h
  · intro h
    rw [h]

theorem printDate_ne_empty (d : Date) : printDate d ≠ "" := by
  unfold printDate
  rw [Ne, mk_eq_empty_iff]
  simp [printDateL, pad4]

theorem data_append (a b : String) : (a ++ b).data = a.data ++ b.data := rfl

theorem takeWhile_append_stop (p : Char → Bool) (xs ys : List Char) (y : Char)
    (h : ∀ x ∈ xs, p x = true) (hy : p y = false) :
    (xs ++ y :: ys).takeWhile p = xs := by
  induction xs with
  | nil =>
    simp [List.takeWhile_cons, hy]
  | cons a as ih =>
    have ha := h a (List.mem_cons_self a as)
    simp [List.takeWhile_cons, ha,
      ih (fun x hx => h x (List.mem_cons_of_mem a hx))]

/-- The output-shape predicate for "ISO-8601 string with an explicit UTC
offset": the string ends in `±HH:MM`. -/
def hasOffsetSuffix (s : String) : Bool :=
  match s.data.reverse with
  | m2 :: m1 :: c :: h2 :: h1 :: sign :: _ =>
    isDig m2 && isDig m1 && (c = ':') && isDig h2 && isDig h1 &&
      (sign = '+' ∨ sign = '-')
  | _ => false

theorem printOffsetL_reverse (o : Int) :
    (printOffsetL o).reverse =
      digitChar (o.natAbs % 60 % 10) :: digitChar (o.natAbs % 60 / 10 % 10) ::
      ':' :: digitChar (o.natAbs / 60 % 10) ::
      digitChar (o.natAbs / 60 / 10 % 10) ::
      [(if o < 0 then '-' else '+')] := by
  simp [printOffsetL, pad2]

theorem hasOffsetSuffix_append (l : List Char) (o : Int) :
    hasOffsetSuffix ⟨l ++ printOffsetL o⟩ = true := by
  unfold hasOffsetSuffix
  show (match (l ++ printOffsetL o).reverse with
    | m2 :: m1 :: c :: h2 :: h1 :: sign :: _ =>
      isDig m2 && isDig m1 && (c = ':') && isDig h2 && isDig h1 &&
        (sign = '+' ∨ sign = '-')
    | _ => false) = true
  rw [List.reverse_append, printOffsetL_reverse]
  simp only [List.cons_append]
  rw [isDig_total, isDig_total, isDig_total, isDig_total]
  split <;> simp

/-! ## FHIR data structures (dict shapes built/read by the converters) -/

/-- A FHIR Coding dict: optional `system`, `code`, `display` keys. -/
structure Coding where
  system : Option String := none
  code : Option String := none
  display : Option String := none
deriving DecidableEq, Repr

/-- A FHIR CodeableConcept dict: a `coding` list and optional `text`. -/
structure CodeableConcept where
  coding : List Coding := []
  text : Option String := none
deriving DecidableEq, Repr

/-- A FHIR reference dict `{"reference": "Kind/id"}`. -/
structure Ref where
  reference : String
deriving DecidableEq, Repr

/-- Value slot of an extension dict (`valueString`, `valueDecimal`,
`valueAddress` with a `text` key, or `valueReference`); `nil` when the dict
carries no value key. -/
inductive ExtVal where
  | nil
  | vstr (s : String)
  | vdec (q : Rat)
  | vaddr (text : String)
  | vref (r : Ref)
deriving DecidableEq, Repr

/-- A nested (inner) extension dict: url plus a value slot. -/
structure SubExt where
  url : String
  value : ExtVal := .nil
deriving DecidableEq, Repr

/-- A top-level extension dict: url, optional value slot, optional nested
`extension` list (one nesting level, as used by the converters). -/
structure Extension where
  url : String
  value : ExtVal := .nil
  sub : List SubExt := []
deriving DecidableEq, Repr

/-- A FHIR Identifier dict as built by the patient converter. -/
structure PIdentifier where
  system : Option String := none
  type : Option CodeableConcept := none
  value : String
deriving DecidableEq, Repr

/-- A FHIR HumanName dict. -/
structure HumanName where
  use : Option String := none
  pfx : List String := []
  given : List String := []
  family : Option String := none
  suffix : List String := []
deriving DecidableEq, Repr

/-- A FHIR Address dict as built by the patient converter. -/
structure Address where
  use : Option String := none
  line : List String := []
  city : Option String := none
  state : Option String := none
  district : Option String := none
  postalCode : Option String := none
  extension : List Extension := []
deriving DecidableEq, Repr

/-- A FHIR Period dict (`start`/`end` datetime strings). -/
structure Period where
  start : Option String := none
  stop : Option String := none
deriving DecidableEq, Repr

/-! ## `fhir_lib.py` -/

/-- `fhir_lib.format_datetime`: Synthea datetime string → ISO 8601 with
timezone (UTC assumed when missing), or `None` when empty/unparseable. -/
def format_datetime (date_str : Option String) : Option String :=
  match date_str with
  | none => none
  | some s =>
    if s = "" ∨ pyStrip s = "" then none
    else
      match fromisoformat (replaceZ (pyStrip s)) with
      | none => none
      | some dt =>
        if dt.offset.isSome then some (isoformat dt)
        else some (isoformat { dt with offset := some 0 })

/-- `fhir_lib.format_date`: Synthea date string → `YYYY-MM-DD`, or `None`. -/
def format_date (date_str : Option String) : Option String :=
  match date_str with
  | none => none
  | some s =>
    if s = "" ∨ pyStrip s = "" then none
    else
      match fromisoformat (replaceZ s) with
      | none => none
      | some dt => some (printDate dt.date)

/-- `fhir_lib.create_reference`: `{"reference": "ResourceType/id"}` or
`None` when the id is missing/blank. -/
def create_reference (resource_type : String) (resource_id : Option String) :
    Option Ref :=
  match resource_id with
  | none => none
  | some rid =>
    if rid = "" ∨ pyStrip rid = "" then none
    else some ⟨resource_type ++ "/" ++ pyStrip rid⟩

/-- `fhir_lib.map_gender`: Synthea "M"/"F" → FHIR "male"/"female". -/
def map_gender (gender_str : Option String) : Option String :=
  match gender_str with
  | none => none
  | some s =>
    if s = "" then none
    else
      let k := pyStrip (pyUpper s)
      if k = "M" then some "male"
      else if k = "F" then some "female"
      else none

/-- The v3-MaritalStatus display texts used by `map_marital_status`. -/
def maritalDisplay (code : String) : String :=
  if code = "S" then "Never Married"
  else if code = "M" then "Married"
  else if code = "D" then "Divorced"
  else "Widowed"

/-- `fhir_lib.map_marital_status`: Synthea "S"/"M"/"D"/"W" → CodeableConcept
with a v3-MaritalStatus coding, else `None`. -/
def map_marital_status (marital_str : Option String) : Option CodeableConcept :=
  match marital_str with
  | none => none
  | some s =>
    if s = "" then none
    else
      let k := pyStrip (pyUpper s)
      if k = "S" ∨ k = "M" ∨ k = "D" ∨ k = "W" then
        some ⟨[⟨some "http://terminology.hl7.org/CodeSystem/v3-MaritalStatus",
               some k, some (maritalDisplay k)⟩], none⟩
      else none

/-- `fhir_lib.normalize_allergy_category`. -/
def normalize_allergy_category (category : Option String) : Option String :=
  match category with
  | none => none
  | some s =>
    if s = "" then none
    else
      let k := pyStrip (pyLower s)
      if k = "drug" ∨ k = "medication" then some "medication"
      else if k = "food" then some "food"
      else if k = "environment" then some "environment"
      else none

/-- `fhir_lib.create_clinical_status_coding` with the default
active/resolved codes used by the converters. -/
def create_clinical_status_coding (is_active : Bool) (status_system : String) :
    CodeableConcept :=
  let code := if is_active then "active" else "resolved"
  let dsp := if is_active then "Active" else "Resolved"
  ⟨[⟨some status_system, some code, some dsp⟩], none⟩

/-! ## `chidian_ext.py` -/

/-- Core of `chidian_ext.extract_ref_id` on the reference string:
`reference.split("/")[-1] if "/" in reference else reference`
(the last `/`-separated component). -/
def refLastComponent (reference : String) : String :=
  if reference.data.contains '/' then
    ⟨(reference.data.reverse.takeWhile (fun c => c ≠ '/')).reverse⟩
  else reference

/-- `chidian_ext.extract_ref_id`: resource id from a reference dict,
default when absent/empty. -/
def extract_ref_id (ref_obj : Option Ref) (dflt : String := "") : String :=
  match ref_obj with
  | none => dflt
  | some r => if r.reference = "" then dflt else refLastComponent r.reference

/-- `chidian_ext.to_datetime`: parse to ISO 8601 (no timezone defaulting),
or the caller's default. -/
def to_datetime (dt_value : Option String) (dflt : String := "") : String :=
  match dt_value with
  | none => dflt
  | some s =>
    if s = "" then dflt
    else
      match fromisoformat (replaceZ s) with
      | none => dflt
      | some dt => isoformat dt

/-- `chidian_ext.to_date_str`: parse to date-only `YYYY-MM-DD`,
or the caller's default. -/
def to_date_str (dt_value : Option String) (dflt : String := "") : String :=
  match dt_value with
  | none => dflt
  | some s =>
    if s = "" then dflt
    else
      match fromisoformat (replaceZ s) with
      | none => dflt
      | some dt => printDate dt.date

/-! ## `synthea_csv_lib.py` (module absent from the sources; modelled from
the spec's extractor contracts in §4.1) -/

/-- Modelled from the spec: `synthea_csv_lib.parse_datetime` is absent from
the sources; §4.1 "Datetime normalization ... returns ISO-8601 ... for
'full' mode; invalid input yields the caller's default" (callers pass no
default, so the default is `""`). -/
def parse_datetime (dt_value : Option String) : String :=
  to_datetime dt_value ""

/-- Modelled from the spec: `synthea_csv_lib.parse_datetime_to_date` is
absent from the sources; §4.1 date mode returns `"YYYY-MM-DD"`, invalid
input yields the default `""`. -/
def parse_datetime_to_date (dt_value : Option String) : String :=
  to_date_str dt_value ""

/-- Modelled from the spec: `synthea_csv_lib.extract_coding_code` is absent
from the sources; §4.1 "given a concept structure with an ordered list of
(system, code, display) tuples, return the code matching a preferred system
(trying a priority list in order), falling back to the first entry's code
if none match". -/
def extract_coding_code (concept : CodeableConcept)
    (preferred_systems : List String := []) : String :=
  match preferred_systems.findSome?
      (fun sys => concept.coding.findSome?
        (fun c => if c.system = some sys ∧ (c.code.getD "") ≠ "" then c.code
                  else none)) with
  | some code => code
  | none =>
    match concept.coding with
    | [] => ""
    | c :: _ => c.code.getD ""

/-- Modelled from the spec: `synthea_csv_lib.extract_coding_system` is
absent from the sources; the first entry's system (cf.
`chidian_ext.extract_system`). -/
def extract_coding_system (concept : CodeableConcept) : String :=
  match concept.coding with
  | [] => ""
  | c :: _ => c.system.getD ""

/-- Modelled from the spec: `synthea_csv_lib.extract_display_or_text` is
absent from the sources; §4.1 "likewise for 'display' (falls back to a
free-text field)" (cf. `chidian_ext.extract_display`). -/
def extract_display_or_text (concept : CodeableConcept) : String :=
  match concept.coding with
  | c :: _ =>
    if (c.display.getD "") ≠ "" then c.display.getD ""
    else concept.text.getD ""
  | [] => concept.text.getD ""

/-- Modelled from the spec: `synthea_csv_lib.extract_reference_id` is absent
from the sources; §4.1 reference decomposition `"kind/id" → id` (cf.
`chidian_ext.extract_ref_id`). -/
def extract_reference_id (ref_obj : Ref) : String :=
  if ref_obj.reference = "" then "" else refLastComponent ref_obj.reference

/-- Look up a top-level extension by url. -/
def findExt (exts : List Extension) (url : String) : Option Extension :=
  exts.find? (fun e => e.url = url)

/-- Modelled from the spec: `synthea_csv_lib.extract_extension_string` is
absent from the sources; §4.1/§4.2 side-channel extension extraction of a
string value by url, default `""`. -/
def extract_extension_string (exts : List Extension) (url : String) : String :=
  match findExt exts url with
  | some e =>
    (match e.value with
     | .vstr s => s
     | _ => "")
  | none => ""

/-- Modelled from the spec: `synthea_csv_lib.extract_extension_decimal` is
absent from the sources; side-channel extension extraction of a decimal
value by url, `none` when absent. -/
def extract_extension_decimal (exts : List Extension) (url : String) :
    Option Rat :=
  match findExt exts url with
  | some e =>
    (match e.value with
     | .vdec q => some q
     | _ => none)
  | none => none

/-- Modelled from the spec: `synthea_csv_lib.extract_extension_reference` is
absent from the sources; side-channel extension extraction of a reference id
by url (cf. `chidian_ext.extract_ext_ref`), default `""`. -/
def extract_extension_reference (exts : List Extension) (url : String) :
    String :=
  match findExt exts url with
  | some e =>
    (match e.value with
     | .vref r => if r.reference = "" then "" else refLastComponent r.reference
     | _ => "")
  | none => ""

/-! ## Flat (Synthea) record types, as read/produced by the converters -/

/-- Python `x or None` for strings. -/
def orNone (s : String) : Option String := if s = "" then none else some s

/-- Python `x or dflt` for strings. -/
def pyOr (s dflt : String) : String := if s = "" then dflt else s

/-- `str()` of an optional `datetime.date`, stripped (dates print with no
surrounding whitespace, so the strip is a no-op). -/
def to_str_date : Option Date → String
  | none => ""
  | some d => printDate d

/-- Synthea Patient flat record (`synthea_pydantic.Patient` as consumed and
produced by the converters; `prefix` is a Lean keyword, renamed `pfx`). -/
structure SyntheaPatient where
  id : Option String := none
  birthdate : Option Date := none
  deathdate : Option Date := none
  ssn : Option String := none
  drivers : Option String := none
  passport : Option String := none
  pfx : Option String := none
  first : Option String := none
  last : Option String := none
  suffix : Option String := none
  maiden : Option String := none
  marital : Option String := none
  race : Option String := none
  ethnicity : Option String := none
  gender : Option String := none
  birthplace : Option String := none
  address : Option String := none
  city : Option String := none
  state : Option String := none
  county : Option String := none
  zip : Option String := none
  lat : Option Rat := none
  lon : Option Rat := none
  healthcare_expenses : Rat := 0
  healthcare_coverage : Rat := 0
deriving DecidableEq, Repr

/-- FHIR Patient resource dict, with exactly the keys the converters
set/read (`exclude_none=True`: an absent key is `none`/`[]`). -/
structure FhirPatient where
  id : Option String := none
  identifier : List PIdentifier := []
  birthDate : Option String := none
  deceasedDateTime : Option String := none
  deceasedBoolean : Option Bool := none
  name : List HumanName := []
  gender : Option String := none
  maritalStatus : Option CodeableConcept := none
  extension : List Extension := []
  address : List Address := []
deriving DecidableEq, Repr

def v2_0203 : String := "http://terminology.hl7.org/CodeSystem/v2-0203"
def raceUrl : String :=
  "http://hl7.org/fhir/us/core/StructureDefinition/us-core-race"
def ethnicityUrl : String :=
  "http://hl7.org/fhir/us/core/StructureDefinition/us-core-ethnicity"
def birthPlaceUrl : String := "http://hl7.org/fhir/StructureDefinition/birthPlace"
def geolocationUrl : String := "http://hl7.org/fhir/StructureDefinition/geolocation"

/-! ## CPython `float()` on geolocation coordinates

`to_fhir/patient.py` funnels latitude and longitude through the `float`
builtin (`float(lat)`, `float(lon)` at the geolocation extension), so the
stored coordinate is the IEEE-754 binary64 rounding of the source decimal,
not the decimal itself. The surrounding decimal ⇄ float conversions of the
pipeline are value-preserving, so the numeric effect is exactly this
rounding. -/

/-- Fuelled floor-of-log2 on naturals by structural recursion; the fuel
argument only bounds the recursion depth, and any fuel ≥ the argument is
enough. -/
def log2F : Nat → Nat → Nat
  | 0, _ => 0
  | fuel + 1, n => if n ≤ 1 then 0 else log2F fuel (n / 2) + 1

/-- Floor of log2 of a natural number (0 for 0). -/
def natLog2F (n : Nat) : Nat := log2F n n

/-- Floor of log2 of the positive rational `num / den`: the unique `e`
with `2 ^ e ≤ num / den < 2 ^ (e + 1)`. -/
def ratLog2 (num den : Nat) : Int :=
  let c : Int := (natLog2F num : Int) - (natLog2F den : Int)
  if 0 ≤ c then (if den * 2 ^ c.toNat ≤ num then c else c - 1)
  else (if den ≤ num * 2 ^ (-c).toNat then c else c - 1)

/-- Round the nonnegative rational `num / den` to the nearest integer,
ties to even. -/
def rnHalfEven (num den : Nat) : Nat :=
  let q := num / den
  let r := num % den
  if 2 * r < den then q
  else if den < 2 * r then q + 1
  else if q % 2 = 0 then q else q + 1

/-- CPython `float()` applied to an exact decimal value (`to_fhir/patient.py`
geolocation extension: `float(lat)`, `float(lon)`): the correctly rounded
IEEE-754 binary64 value — round to nearest, ties to even, 53-bit
significand, gradual underflow to subnormals with least unit in the last
place 2 ^ (-1074). Overflow to infinity (inputs rounding to magnitude
≥ 2 ^ 1024) is outside the model; the round-trip theorem keeps
coordinates inside the finite float range. -/
def pyFloat (q : Rat) : Rat :=
  if q = 0 then 0
  else
    let num := q.num.natAbs
    let den := q.den
    let e := ratLog2 num den
    let u := max (e - 52) (-1074)
    let n : Nat :=
      if 0 ≤ u then rnHalfEven num (den * 2 ^ u.toNat)
      else rnHalfEven (num * 2 ^ (-u).toNat) den
    let m : Rat :=
      if 0 ≤ u then ((n * 2 ^ u.toNat : Nat) : Rat)
      else mkRat (Int.ofNat n) (2 ^ (-u).toNat)
    if q.num < 0 then -m else m

/-- The binary64 model is lossy on 1/10 (the classic decimal with no
finite binary representation), matching CPython float("0.1"). -/
theorem pyFloat_tenth :
    pyFloat (mkRat 1 10) = mkRat 3602879701896397 36028797018963968 ∧
    pyFloat (mkRat 1 10) ≠ mkRat 1 10 := by decide

/-! ## `to_fhir/patient.py` -/

/-- `to_fhir.patient.convert`: Synthea Patient → FHIR R4 Patient. -/
def patient_to_fhir (src : SyntheaPatient) : FhirPatient :=
  let patient_id := to_str src.id
  let birthdate := to_str_date src.birthdate
  let deathdate := to_str_date src.deathdate
  let ssn := to_str src.ssn
  let drivers := to_str src.drivers
  let passport := to_str src.passport
  let pfx := to_str src.pfx
  let first := to_str src.first
  let last := to_str src.last
  let suffix := to_str src.suffix
  let maiden := to_str src.maiden
  let marital := to_str src.marital
  let race := to_str src.race
  let ethnicity := to_str src.ethnicity
  let gender := to_str src.gender
  let birthplace := to_str src.birthplace
  let address := to_str src.address
  let city := to_str src.city
  let state := to_str src.state
  let county := to_str src.county
  let zip_code := to_str src.zip
  let lat := src.lat
  let lon := src.lon
  let identifiers : List PIdentifier :=
    (if patient_id ≠ "" then
       [{ system := some "urn:oid:2.16.840.1.113883.19.5", value := patient_id }]
     else []) ++
    (if ssn ≠ "" then
       [{ type := some ⟨[⟨some v2_0203, some "SS", some "Social Security Number"⟩], none⟩,
          value := ssn }]
     else []) ++
    (if drivers ≠ "" then
       [{ type := some ⟨[⟨some v2_0203, some "DL", some "Driver's License"⟩], none⟩,
          value := drivers }]
     else []) ++
    (if passport ≠ "" then
       [{ type := some ⟨[⟨some v2_0203, some "PPN", some "Passport Number"⟩], none⟩,
          value := passport }]
     else [])
  let names : List HumanName :=
    (if first ≠ "" ∨ last ≠ "" ∨ pfx ≠ "" ∨ suffix ≠ "" then
       [{ use := some "official",
          pfx := if pfx ≠ "" then [pfx] else [],
          given := if first ≠ "" then [first] else [],
          family := if last ≠ "" then some last else none,
          suffix := if suffix ≠ "" then [suffix] else [] }]
     else []) ++
    (if maiden ≠ "" then [{ use := some "maiden", family := some maiden }] else [])
  let extensions : List Extension :=
    (if race ≠ "" then [⟨raceUrl, .nil, [⟨"text", .vstr race⟩]⟩] else []) ++
    (if ethnicity ≠ "" then [⟨ethnicityUrl, .nil, [⟨"text", .vstr ethnicity⟩]⟩] else []) ++
    (if birthplace ≠ "" then [⟨birthPlaceUrl, .vaddr birthplace, []⟩] else [])
  let addresses : List Address :=
    if address ≠ "" ∨ city ≠ "" ∨ state ≠ "" ∨ county ≠ "" ∨ zip_code ≠ "" ∨
        (lat.isSome ∧ lon.isSome) then
      [{ use := some "home",
         line := if address ≠ "" then [address] else [],
         city := if city ≠ "" then some city else none,
         state := if state ≠ "" then some state else none,
         district := if county ≠ "" then some county else none,
         postalCode := if zip_code ≠ "" then some zip_code else none,
         extension :=
           match lat, lon with
           | some la, some lo =>
             [⟨geolocationUrl, .nil,
               [⟨"latitude", .vdec (pyFloat la)⟩,
                ⟨"longitude", .vdec (pyFloat lo)⟩]⟩]
           | _, _ => [] }]
    else []
  { id := if patient_id ≠ "" then some patient_id else none
    identifier := identifiers
    birthDate := if birthdate ≠ "" then format_date (some birthdate) else none
    deceasedDateTime :=
      if deathdate ≠ "" then format_datetime (some deathdate) else none
    deceasedBoolean := if deathdate ≠ "" then none else some false
    name := names
    gender := map_gender (some gender)
    maritalStatus := map_marital_status (some marital)
    extension := extensions
    address := addresses }

/-! ## `to_synthea/patient.py` -/

/-- `to_synthea.patient._extract_identifier_value`. -/
def _extract_identifier_value (identifiers : List PIdentifier)
    (type_code : String) : String :=
  (identifiers.findSome? (fun ident =>
    match ident.type with
    | none => none
    | some t =>
      t.coding.findSome? (fun c =>
        if c.code = some type_code then some ident.value else none))).getD ""

/-- Name selection in `to_synthea.patient._extract_name_part`: the entry
with matching `use`, else the first entry. -/
def findName (names : List HumanName) (use : String) : Option HumanName :=
  match names.find? (fun n => n.use = some use) with
  | some n => some n
  | none => names.head?

/-- `to_synthea.patient._extract_name_part`. -/
def _extract_name_part (names : List HumanName) (use part : String) : String :=
  match findName names use with
  | none => ""
  | some n =>
    if part = "given" then (n.given.head?).getD ""
    else if part = "family" then n.family.getD ""
    else if part = "prefix" then (n.pfx.head?).getD ""
    else if part = "suffix" then (n.suffix.head?).getD ""
    else ""

/-- `to_synthea.patient._extract_maiden_name`. -/
def _extract_maiden_name (names : List HumanName) : String :=
  match names.find? (fun n => n.use = some "maiden") with
  | some n => n.family.getD ""
  | none => ""

/-- `to_synthea.patient._extract_address_part`. -/
def _extract_address_part (addresses : List Address) (part : String) : String :=
  match addresses.head? with
  | none => ""
  | some addr =>
    if part = "line" then (addr.line.head?).getD ""
    else if part = "city" then addr.city.getD ""
    else if part = "state" then addr.state.getD ""
    else if part = "district" then addr.district.getD ""
    else if part = "postalCode" then addr.postalCode.getD ""
    else ""

/-- Decimal value of an extension value slot (`.get("valueDecimal")`). -/
def extDec : ExtVal → Option Rat
  | .vdec q => some q
  | _ => none

/-- `to_synthea.patient._extract_geolocation`. -/
def _extract_geolocation (addresses : List Address) : Option Rat × Option Rat :=
  match addresses.head? with
  | none => (none, none)
  | some addr =>
    addr.extension.foldl (fun acc ext =>
      if ext.url = geolocationUrl then
        ext.sub.foldl (fun acc2 n =>
          if n.url = "latitude" then (extDec n.value, acc2.2)
          else if n.url = "longitude" then (acc2.1, extDec n.value)
          else acc2) acc
      else acc) (none, none)

/-- `to_synthea.patient._map_fhir_gender` (same table as
`synthea_lib.map_fhir_gender`). -/
def _map_fhir_gender (gender : Option String) : String :=
  match gender with
  | none => "M"
  | some s =>
    if s = "" then "M"
    else if pyLower s = "male" then "M"
    else if pyLower s = "female" then "F"
    else "M"

/-- `to_synthea.patient._map_fhir_marital`. -/
def _map_fhir_marital (marital_status : Option CodeableConcept) :
    Option String :=
  match marital_status with
  | none => none
  | some ms =>
    ms.coding.findSome? (fun c =>
      let code := c.code.getD ""
      if code = "M" ∨ code = "S" ∨ code = "D" ∨ code = "W" then some code
      else none)

/-- `to_synthea.patient._extract_extension_text` (US-Core style: nested
`text` sub-extension first, then a direct `valueString`). -/
def _extract_extension_text (exts : List Extension) (url : String) : String :=
  match findExt exts url with
  | none => ""
  | some ext =>
    match ext.sub.find? (fun n => n.url = "text") with
    | some n =>
      (match n.value with
       | .vstr s => s
       | _ => "")
    | none =>
      (match ext.value with
       | .vstr s => s
       | _ => "")

/-- `to_synthea.patient._extract_birthplace`. -/
def _extract_birthplace (exts : List Extension) : String :=
  match findExt exts birthPlaceUrl with
  | none => ""
  | some ext =>
    match ext.value with
    | .vaddr t => t
    | _ => ""

/-- Date extraction used for `birthDate`/`deceasedDateTime` in
`to_synthea.patient.convert` (the dict value is an ISO string in this
embedding, so the `isinstance(_, date)` branch is the string branch). -/
def parseFhirDateField (raw : Option String) : Option Date :=
  match raw with
  | none => none
  | some s =>
    if s = "" then none
    else
      let parsed := parse_datetime_to_date (some s)
      if parsed ≠ "" then date_fromisoformat parsed else none

/-- `to_synthea.patient.convert`: FHIR R4 Patient → Synthea Patient. -/
def patient_to_synthea (src : FhirPatient) : SyntheaPatient :=
  let patient_id := src.id.getD ""
  let ssn := _extract_identifier_value src.identifier "SS"
  let drivers := _extract_identifier_value src.identifier "DL"
  let passport := _extract_identifier_value src.identifier "PPN"
  let first := _extract_name_part src.name "official" "given"
  let last := _extract_name_part src.name "official" "family"
  let pfx := _extract_name_part src.name "official" "prefix"
  let suffix := _extract_name_part src.name "official" "suffix"
  let maiden := _extract_maiden_name src.name
  let birthdate := parseFhirDateField src.birthDate
  let deathdate := parseFhirDateField src.deceasedDateTime
  let gender := _map_fhir_gender src.gender
  let marital := _map_fhir_marital src.maritalStatus
  let race := _extract_extension_text src.extension raceUrl
  let ethnicity := _extract_extension_text src.extension ethnicityUrl
  let birthplace := _extract_birthplace src.extension
  let address := _extract_address_part src.address "line"
  let city := _extract_address_part src.address "city"
  let state := _extract_address_part src.address "state"
  let county := _extract_address_part src.address "district"
  let zip_code := _extract_address_part src.address "postalCode"
  let geo := _extract_geolocation src.address
  { id := orNone patient_id
    birthdate := birthdate
    deathdate := deathdate
    ssn := some (pyOr ssn "000-00-0000")
    drivers := orNone drivers
    passport := orNone passport
    pfx := orNone pfx
    first := some (pyOr first "Unknown")
    last := some (pyOr last "Unknown")
    suffix := orNone suffix
    maiden := orNone maiden
    marital := marital
    race := some (pyOr race "unknown")
    ethnicity := some (pyOr ethnicity "unknown")
    gender := some gender
    birthplace := some (pyOr birthplace "Unknown")
    address := some (pyOr address "Unknown")
    city := some (pyOr city "Unknown")
    state := some (pyOr state "Unknown")
    county := orNone county
    zip := orNone zip_code
    lat := geo.1
    lon := geo.2
    healthcare_expenses := 0
    healthcare_coverage := 0 }

/-! ## Encounters (`to_fhir/encounter.py`, `to_synthea/encounter.py`) -/

/-- Synthea Encounter flat record (datetimes kept as ISO strings, numeric
costs as `Rat`). -/
structure SyntheaEncounter where
  id : Option String := none
  start : Option String := none
  stop : Option String := none
  patient : Option String := none
  organization : Option String := none
  provider : Option String := none
  payer : Option String := none
  encounterclass : Option String := none
  code : Option String := none
  description : Option String := none
  base_encounter_cost : Option Rat := none
  total_claim_cost : Option Rat := none
  payer_coverage : Option Rat := none
  reasoncode : Option String := none
  reasondescription : Option String := none
deriving DecidableEq, Repr

/-- Participant dict (R4B `actor`, R4 `individual`). -/
structure Participant where
  actor : Option Ref := none
  individual : Option Ref := none
deriving DecidableEq, Repr

/-- One entry of the `reason` list: `{"value": [{"concept": concept}]}`. -/
structure ReasonEntry where
  value : List CodeableConcept
deriving DecidableEq, Repr

/-- FHIR Encounter resource dict with the keys set/read by the converters
(`class_fhir` models the `class` key that `model_dump` produces). -/
structure FhirEncounter where
  id : Option String := none
  status : String := ""
  actualPeriod : Option Period := none
  period : Option Period := none
  subject : Option Ref := none
  serviceProvider : Option Ref := none
  participant : List Participant := []
  class_fhir : List CodeableConcept := []
  type : List CodeableConcept := []
  reason : List ReasonEntry := []
  reasonCode : List CodeableConcept := []
  extension : List Extension := []
deriving DecidableEq, Repr

def actCodeSystem : String := "http://terminology.hl7.org/CodeSystem/v3-ActCode"
def snomedSystem : String := "http://snomed.info/sct"

/-- The pattern starts the character list. -/
def leadsWith : List Char → List Char → Bool
  | [], _ => true
  | _ :: _, [] => false
  | a :: as, b :: bs => a = b && leadsWith as bs

/-- The pattern occurs somewhere in the character list. -/
def occursIn (pat : List Char) : List Char → Bool
  | [] => pat.isEmpty
  | b :: bs => leadsWith pat (b :: bs) || occursIn pat bs

/-- Python substring containment `pat in s`. -/
def substrOccurs (pat s : String) : Bool := occursIn pat.data s.data

/-- Python `x or y` on optional reference strings (`""` is falsy). -/
def pyOrS : Option String → Option String → Option String
  | some s, b => if s = "" then b else some s
  | none, b => b

/-- `.replace(" ", "-").replace(":", "-")` on generated resource ids. -/
def sanitizeId (s : String) : String :=
  ⟨s.data.map (fun c => if c = ' ' ∨ c = ':' then '-' else c)⟩

/-- `to_fhir.encounter._map_encounter_class`: Synthea class string →
CodeableConcept with a v3-ActCode coding, `none` when unrecognized. -/
def _map_encounter_class (class_str : String) : Option CodeableConcept :=
  if class_str = "" then none
  else
    let k := pyStrip (pyLower class_str)
    let mapping : Option (String × String) :=
      if k = "ambulatory" then some ("AMB", "ambulatory")
      else if k = "emergency" then some ("EMER", "emergency")
      else if k = "inpatient" then some ("IMP", "inpatient encounter")
      else if k = "wellness" then some ("AMB", "ambulatory")
      else if k = "urgentcare" then some ("AMB", "ambulatory")
      else none
    match mapping with
    | none => none
    | some (code, display) =>
      some ⟨[⟨some actCodeSystem, some code, some display⟩], none⟩

/-- The SNOMED-coded concept dict built inline for `type` and `reason`
(coding with optional display, plus optional text). -/
def sctConcept (code description : String) : CodeableConcept :=
  ⟨if code ≠ "" then
     [⟨some snomedSystem, some code,
       if description ≠ "" then some description else none⟩]
   else [],
   if description ≠ "" then some description else none⟩

/-- `to_fhir.encounter.convert`: Synthea Encounter → FHIR R4 Encounter,
with optional parent-reference overrides. -/
def encounter_to_fhir (src : SyntheaEncounter)
    (patient_ref provider_ref organization_ref : Option String) :
    FhirEncounter :=
  let encounter_id := to_str src.id
  let start := to_str src.start
  let stop := to_str src.stop
  let patient_id := to_str src.patient
  let organization_id := to_str src.organization
  let provider_id := to_str src.provider
  let encounter_class := to_str src.encounterclass
  let code := to_str src.code
  let description := to_str src.description
  let reason_code := to_str src.reasoncode
  let reason_description := to_str src.reasondescription
  let payer_id := to_str src.payer
  let status := if stop ≠ "" then "completed" else "in-progress"
  let idField : Option String :=
    if encounter_id ≠ "" then some encounter_id
    else
      let resource_id := sanitizeId (patient_id ++ "-" ++ start ++ "-" ++ code)
      if resource_id ≠ "" ∧ resource_id ≠ "--" then some resource_id else none
  let actual_period : Period :=
    { start := if start ≠ "" then format_datetime (some start) else none
      stop := if stop ≠ "" then format_datetime (some stop) else none }
  let effective_patient_ref := pyOrS patient_ref
    (if patient_id ≠ "" then some ("Patient/" ++ patient_id) else none)
  let effective_org_ref := pyOrS organization_ref
    (if organization_id ≠ "" then some ("Organization/" ++ organization_id) else none)
  let effective_provider_ref := pyOrS provider_ref
    (if provider_id ≠ "" then some ("Practitioner/" ++ provider_id) else none)
  let typeField : List CodeableConcept :=
    if code ≠ "" ∨ description ≠ "" then [sctConcept code description] else []
  let reasonField : List ReasonEntry :=
    if reason_code ≠ "" ∨ reason_description ≠ "" then
      [⟨[sctConcept reason_code reason_description]⟩]
    else []
  let extensions : List Extension :=
    (if payer_id ≠ "" then
       match create_reference "Organization" (some payer_id) with
       | some r =>
         [⟨"http://example.org/fhir/StructureDefinition/encounter-payer",
           .vref r, []⟩]
       | none => []
     else []) ++
    (match src.base_encounter_cost with
     | some q =>
       [⟨"http://example.org/fhir/StructureDefinition/encounter-baseCost",
         .vdec q, []⟩]
     | none => []) ++
    (match src.total_claim_cost with
     | some q =>
       [⟨"http://example.org/fhir/StructureDefinition/encounter-totalClaimCost",
         .vdec q, []⟩]
     | none => []) ++
    (match src.payer_coverage with
     | some q =>
       [⟨"http://example.org/fhir/StructureDefinition/encounter-payerCoverage",
         .vdec q, []⟩]
     | none => [])
  FhirEncounter.mk
    idField
    status
    (if actual_period.start.isSome ∨ actual_period.stop.isSome then
       some actual_period
     else none)
    none
    (effective_patient_ref.map Ref.mk)
    (effective_org_ref.map Ref.mk)
    (match effective_provider_ref with
     | some r => [⟨some ⟨r⟩, none⟩]
     | none => [])
    (match _map_encounter_class encounter_class with
     | some cc => [cc]
     | none => [])
    typeField
    reasonField
    []
    extensions

/-- Input shape of the reverse class mapper (a list of CodeableConcepts
from R4B `class`, or a bare Coding dict for backwards compatibility). -/
inductive EncClassInput where
  | concepts (l : List CodeableConcept)
  | single (c : Coding)
deriving DecidableEq, Repr

/-- `to_synthea.encounter._map_encounter_class`: FHIR class → Synthea class
string (`""` when unmapped). -/
def _map_encounter_class_rev (encounter_class : Option EncClassInput) :
    String :=
  match encounter_class with
  | none => ""
  | some input =>
    let fields : Option (String × String × String) :=
      match input with
      | .concepts [] => none
      | .concepts (first_class :: _) =>
        (match first_class.coding with
         | [] => none
         | coding :: _ =>
           some (coding.code.getD "", coding.system.getD "",
                 coding.display.getD ""))
      | .single c =>
        some (c.code.getD "", c.system.getD "", c.display.getD "")
    match fields with
    | none => ""
    | some (code, system, display) =>
      if substrOccurs "v3-ActCode" system ∨
          substrOccurs "terminology.hl7.org/CodeSystem/v3-ActCode" system then
        if code = "AMB" then "ambulatory"
        else if code = "EMER" then "emergency"
        else if code = "IMP" then "inpatient"
        else if code = "ACUTE" then "inpatient"
        else ""
      else if display ≠ "" then pyLower display
      else ""

/-- The valid Synthea encounter classes accepted by the flat schema. -/
def valid_classes : List String :=
  ["ambulatory", "emergency", "inpatient", "wellness", "urgentcare",
   "outpatient"]

/-- Membership in `valid_classes`, written executably. -/
def isValidClass (encounter_class : String) : Bool :=
  valid_classes.any (fun v => encounter_class = v)

/-- `to_synthea.encounter.convert`: FHIR R4 Encounter → Synthea Encounter,
plus the warning events emitted. -/
def encounter_to_synthea (src : FhirEncounter) :
    SyntheaEncounter × List String :=
  let resource_id := src.id.getD ""
  let period : Period :=
    match src.actualPeriod with
    | some p => p
    | none => src.period.getD {}
  let start :=
    match period.start with
    | some s => if s ≠ "" then parse_datetime (some s) else ""
    | none => ""
  let stop :=
    match period.stop with
    | some s => if s ≠ "" then parse_datetime (some s) else ""
    | none => ""
  let patient :=
    match src.subject with
    | some r => extract_reference_id r
    | none => ""
  let organization :=
    match src.serviceProvider with
    | some r => extract_reference_id r
    | none => ""
  let provider :=
    match src.participant with
    | [] => ""
    | fp :: _ =>
      (match pyOrS (fp.actor.map Ref.reference)
          (fp.individual.map Ref.reference) with
       | some r => extract_reference_id ⟨r⟩
       | none => "")
  let warnings : List String :=
    if src.participant.length > 1 then
      ["Encounter has multiple participants; only first preserved"]
    else []
  let encounter_class :=
    if src.class_fhir ≠ [] then
      _map_encounter_class_rev (some (.concepts src.class_fhir))
    else ""
  let code :=
    match src.type with
    | [] => ""
    | first_type :: _ => extract_coding_code first_type [snomedSystem]
  let description :=
    match src.type with
    | [] => ""
    | first_type :: _ => extract_display_or_text first_type
  let reason_code :=
    match src.reasonCode with
    | [] => ""
    | first_reason :: _ => extract_coding_code first_reason [snomedSystem]
  let reason_description :=
    match src.reasonCode with
    | [] => ""
    | first_reason :: _ => extract_display_or_text first_reason
  let base_encounter_cost := extract_extension_decimal src.extension
    "http://example.org/fhir/StructureDefinition/encounter-baseCost"
  let total_claim_cost := extract_extension_decimal src.extension
    "http://example.org/fhir/StructureDefinition/encounter-totalClaimCost"
  let payer_coverage := extract_extension_decimal src.extension
    "http://example.org/fhir/StructureDefinition/encounter-payerCoverage"
  let payer := extract_extension_reference src.extension
    "http://example.org/fhir/StructureDefinition/encounter-payer"
  let final_class :=
    if isValidClass encounter_class then encounter_class else "ambulatory"
  ({ id := orNone resource_id
     start := orNone start
     stop := orNone stop
     patient := orNone patient
     organization := orNone organization
     provider := orNone provider
     payer := orNone payer
     encounterclass := some final_class
     code := some (pyOr code "unknown")
     description := some (pyOr description "Unknown")
     base_encounter_cost := some (base_encounter_cost.getD 0)
     total_claim_cost := some (total_claim_cost.getD 0)
     payer_coverage := some (payer_coverage.getD 0)
     reasoncode := orNone reason_code
     reasondescription := orNone reason_description }, warnings)

/-! ## Conditions (`to_fhir/condition.py`) -/

/-- Synthea Condition flat record (fields read by the forward converter). -/
structure SyntheaCondition where
  start : Option String := none
  stop : Option String := none
  patient : Option String := none
  encounter : Option String := none
  code : Option String := none
  description : Option String := none
deriving DecidableEq, Repr

/-- FHIR Condition resource dict with the keys the converter sets. -/
structure FhirCondition where
  id : String
  clinicalStatus : CodeableConcept
  verificationStatus : CodeableConcept
  category : List CodeableConcept
  onsetDateTime : Option String := none
  abatementDateTime : Option String := none
  subject : Option Ref := none
  encounter : Option Ref := none
  code : Option CodeableConcept := none
deriving DecidableEq, Repr

/-- The constant `verificationStatus` concept built by the converters. -/
def verificationConfirmed (system : String) : CodeableConcept :=
  ⟨[⟨some system, some "confirmed", some "Confirmed"⟩], none⟩

/-- The constant `category` concept of `to_fhir.condition.convert`. -/
def encounterDiagnosisCategory : CodeableConcept :=
  ⟨[⟨some "http://terminology.hl7.org/CodeSystem/condition-category",
     some "encounter-diagnosis", some "Encounter Diagnosis"⟩], none⟩

/-- `to_fhir.condition.convert`: Synthea Condition → FHIR R4 Condition,
with optional parent-reference overrides. -/
def condition_to_fhir (src : SyntheaCondition)
    (patient_ref encounter_ref : Option String) : FhirCondition :=
  let start := to_str src.start
  let stop := to_str src.stop
  let patient_id := to_str src.patient
  let encounter_id := to_str src.encounter
  let code := to_str src.code
  let description := to_str src.description
  let is_active := stop = ""
  let resource_id := sanitizeId (patient_id ++ "-" ++ start ++ "-" ++ code)
  let effective_patient_ref := pyOrS patient_ref
    (if patient_id ≠ "" then some ("Patient/" ++ patient_id) else none)
  let effective_encounter_ref := pyOrS encounter_ref
    (if encounter_id ≠ "" then some ("Encounter/" ++ encounter_id) else none)
  let codeField : Option CodeableConcept :=
    if code ≠ "" ∨ description ≠ "" then some (sctConcept code description)
    else none
  FhirCondition.mk
    resource_id
    (create_clinical_status_coding is_active
      "http://terminology.hl7.org/CodeSystem/condition-clinical")
    (verificationConfirmed
      "http://terminology.hl7.org/CodeSystem/condition-ver-status")
    [encounterDiagnosisCategory]
    (if start ≠ "" then format_datetime (some start) else none)
    (if stop ≠ "" then format_datetime (some stop) else none)
    (effective_patient_ref.map Ref.mk)
    (effective_encounter_ref.map Ref.mk)
    codeField

/-! ## Allergies (`to_fhir/allergy.py`, `to_synthea/allergy.py`) -/

/-- Synthea Allergy flat record. -/
structure SyntheaAllergy where
  start : Option String := none
  stop : Option String := none
  patient : Option String := none
  encounter : Option String := none
  code : Option String := none
  system : Option String := none
  description : Option String := none
  type : Option String := none
  category : Option String := none
  reaction1 : Option String := none
  description1 : Option String := none
  severity1 : Option String := none
  reaction2 : Option String := none
  description2 : Option String := none
  severity2 : Option String := none
deriving DecidableEq, Repr

/-- A manifestation dict: the forward converter writes a CodeableReference
(`concept` key); the reverse extractor reads it as a CodeableConcept
(`coding`/`text` keys). Both key sets are modelled. -/
structure ManifestEntry where
  concept : Option CodeableConcept := none
  coding : List Coding := []
  text : Option String := none
deriving DecidableEq, Repr

/-- The CodeableConcept view of a manifestation dict, as seen by the
coded-value extractor (reads `coding`/`text`, ignores `concept`). -/
def ManifestEntry.asConcept (m : ManifestEntry) : CodeableConcept :=
  ⟨m.coding, m.text⟩

/-- A reaction dict of an AllergyIntolerance resource. -/
structure AllergyReaction where
  manifestation : List ManifestEntry := []
  description : Option String := none
  severity : Option String := none
deriving DecidableEq, Repr

/-- FHIR AllergyIntolerance resource dict. -/
structure FhirAllergy where
  id : String
  clinicalStatus : CodeableConcept
  verificationStatus : CodeableConcept
  recordedDate : Option String := none
  onsetDateTime : Option String := none
  lastOccurrence : Option String := none
  patient : Option Ref := none
  encounter : Option Ref := none
  code : Option CodeableConcept := none
  type : Option CodeableConcept := none
  category : List String := []
  reaction : List AllergyReaction := []
deriving DecidableEq, Repr

/-- The single-coding concept built for allergy `code`
(code/system/display all optional, plus text). -/
def allergyCodeConcept (code system description : String) :
    Option CodeableConcept :=
  if code ≠ "" ∨ system ≠ "" ∨ description ≠ "" then
    let codingList : List Coding :=
      if code ≠ "" ∨ system ≠ "" then
        [⟨if system ≠ "" then some system else none,
          if code ≠ "" then some code else none,
          if description ≠ "" then some description else none⟩]
      else []
    some ⟨codingList, if description ≠ "" then some description else none⟩
  else none

/-- The reaction dict built by the forward converter for one flat slot
(R4B CodeableReference manifestation). -/
def buildReaction (code desc severity : String) : List AllergyReaction :=
  if code ≠ "" ∨ desc ≠ "" then
    [⟨if code ≠ "" then
        [⟨some ⟨[⟨some snomedSystem, some code, none⟩], none⟩, [], none⟩]
      else [],
      if desc ≠ "" then some desc else none,
      if severity ≠ "" then some (pyLower severity) else none⟩]
  else []

/-- The allergy-type concept built by the forward converter. -/
def allergyTypeConcept (type_code : String) : CodeableConcept :=
  ⟨[⟨some "http://hl7.org/fhir/allergy-intolerance-type", some type_code,
     some (pyCapitalize type_code)⟩], none⟩

/-- `to_fhir.allergy.convert`: Synthea Allergy → FHIR R4
AllergyIntolerance. -/
def allergy_to_fhir (src : SyntheaAllergy) : FhirAllergy :=
  let start := to_str src.start
  let stop := to_str src.stop
  let patient_id := to_str src.patient
  let encounter_id := to_str src.encounter
  let code := to_str src.code
  let system := to_str src.system
  let description := to_str src.description
  let allergy_type := to_str src.type
  let category := to_str src.category
  let reaction1_code := to_str src.reaction1
  let reaction1_desc := to_str src.description1
  let reaction1_severity := to_str src.severity1
  let reaction2_code := to_str src.reaction2
  let reaction2_desc := to_str src.description2
  let reaction2_severity := to_str src.severity2
  let is_active := stop = ""
  let resource_id := sanitizeId (patient_id ++ "-" ++ start ++ "-" ++ code)
  let iso_start := if start ≠ "" then format_datetime (some start) else none
  FhirAllergy.mk
    resource_id
    (create_clinical_status_coding is_active
      "http://terminology.hl7.org/CodeSystem/allergyintolerance-clinical")
    (verificationConfirmed
      "http://terminology.hl7.org/CodeSystem/allergyintolerance-verification")
    iso_start
    iso_start
    (if stop ≠ "" then format_datetime (some stop) else none)
    (if patient_id ≠ "" then create_reference "Patient" (some patient_id)
     else none)
    (if encounter_id ≠ "" then create_reference "Encounter" (some encounter_id)
     else none)
    (allergyCodeConcept code system description)
    (if allergy_type ≠ "" then some (allergyTypeConcept (pyLower allergy_type))
     else none)
    (match normalize_allergy_category (some category) with
     | some c => [c]
     | none => [])
    (buildReaction reaction1_code reaction1_desc reaction1_severity ++
     buildReaction reaction2_code reaction2_desc reaction2_severity)

def rxnormSystem : String := "http://www.nlm.nih.gov/research/umls/rxnorm"

/-- The three values a reaction slot extracts from one reaction dict:
manifestation code (from the first manifestation, preferring SNOMED),
description, and upper-cased severity. -/
def reactionSlot (r : AllergyReaction) : String × String × String :=
  let rcode :=
    match r.manifestation with
    | [] => ""
    | m :: _ => extract_coding_code m.asConcept [snomedSystem]
  let rdesc := r.description.getD ""
  let sev := r.severity.getD ""
  (rcode, rdesc, if sev ≠ "" then pyUpper sev else "")

/-- `to_synthea.allergy.convert`: FHIR R4 AllergyIntolerance → Synthea
Allergy, plus the warning events emitted. -/
def allergy_to_synthea (src : FhirAllergy) : SyntheaAllergy × List String :=
  let recorded_date := src.recordedDate.getD ""
  let onset_date := src.onsetDateTime.getD ""
  let start :=
    if recorded_date ≠ "" then parse_datetime (some recorded_date)
    else if onset_date ≠ "" then parse_datetime (some onset_date)
    else ""
  let last_occurrence := src.lastOccurrence.getD ""
  let stop :=
    if last_occurrence ≠ "" then parse_datetime (some last_occurrence) else ""
  let patient :=
    match src.patient with
    | some r => extract_reference_id r
    | none => ""
  let encounter :=
    match src.encounter with
    | some r => extract_reference_id r
    | none => ""
  let code :=
    match src.code with
    | some c => extract_coding_code c [snomedSystem, rxnormSystem]
    | none => ""
  let system :=
    match src.code with
    | some c => extract_coding_system c
    | none => ""
  let description :=
    match src.code with
    | some c => extract_display_or_text c
    | none => ""
  let allergy_type :=
    match src.type with
    | some t =>
      extract_coding_code t ["http://hl7.org/fhir/allergy-intolerance-type"]
    | none => ""
  let category :=
    match src.category with
    | [] => ""
    | first_category :: _ => first_category
  let slot1 :=
    match src.reaction with
    | [] => ("", "", "")
    | r1 :: _ => reactionSlot r1
  let slot2 :=
    match src.reaction with
    | _ :: r2 :: _ => reactionSlot r2
    | _ => ("", "", "")
  let warnings : List String :=
    if src.reaction.length > 2 then
      ["AllergyIntolerance has more than 2 reactions; only first 2 preserved"]
    else []
  (SyntheaAllergy.mk
    (orNone start) (orNone stop) (orNone patient) (orNone encounter)
    (orNone code) (orNone system) (orNone description) (orNone allergy_type)
    (orNone category)
    (orNone slot1.1) (orNone slot1.2.1) (orNone slot1.2.2)
    (orNone slot2.1) (orNone slot2.2.1) (orNone slot2.2.2),
   warnings)

/-! ## Claims (`to_synthea/claims.py`) -/

/-- One entry of a Claim's `insurance` list. -/
structure ClaimInsurance where
  coverage : Option Ref := none
  sequence : Option Nat := none
  focal : Option Bool := none
deriving DecidableEq, Repr

/-- One entry of a Claim's `diagnosis` list. -/
structure ClaimDiagnosis where
  diagnosisCodeableConcept : Option CodeableConcept := none
deriving DecidableEq, Repr

/-- One entry of a Claim's `item` list. -/
structure ClaimItem where
  encounter : List Ref := []
deriving DecidableEq, Repr

/-- One entry of a Claim's `event` list. -/
structure ClaimEvent where
  type : Option CodeableConcept := none
  whenDateTime : Option String := none
deriving DecidableEq, Repr

/-- One entry of a Claim's `careTeam` list. -/
structure ClaimCareTeam where
  role : Option CodeableConcept := none
  provider : Option Ref := none
deriving DecidableEq, Repr

/-- One entry of a Claim's `note` list. -/
structure ClaimNote where
  text : Option String := none
deriving DecidableEq, Repr

/-- FHIR Claim resource dict with the keys the reverse converter reads. -/
structure FhirClaim where
  id : Option String := none
  patient : Option Ref := none
  provider : Option Ref := none
  insurance : List ClaimInsurance := []
  extension : List Extension := []
  diagnosis : List ClaimDiagnosis := []
  item : List ClaimItem := []
  event : List ClaimEvent := []
  billablePeriod : Option Period := none
  careTeam : List ClaimCareTeam := []
  type : Option CodeableConcept := none
  subType : Option CodeableConcept := none
  note : List ClaimNote := []
deriving DecidableEq, Repr

/-- Synthea Claim flat record. -/
structure SyntheaClaim where
  id : Option String := none
  patientid : Option String := none
  providerid : Option String := none
  primarypatientinsuranceid : Option String := none
  secondarypatientinsuranceid : Option String := none
  departmentid : Option String := none
  patientdepartmentid : Option String := none
  diagnosis1 : Option String := none
  diagnosis2 : Option String := none
  diagnosis3 : Option String := none
  diagnosis4 : Option String := none
  diagnosis5 : Option String := none
  diagnosis6 : Option String := none
  diagnosis7 : Option String := none
  diagnosis8 : Option String := none
  referringproviderid : Option String := none
  appointmentid : Option String := none
  currentillnessdate : Option Date := none
  servicedate : Option Date := none
  supervisingproviderid : Option String := none
  status1 : Option String := none
  status2 : Option String := none
  statusp : Option String := none
  outstanding1 : Option String := none
  outstanding2 : Option String := none
  outstandingp : Option String := none
  lastbilleddate1 : Option Date := none
  lastbilleddate2 : Option Date := none
  lastbilleddatep : Option Date := none
  healthcareclaimtypeid1 : Option String := none
  healthcareclaimtypeid2 : Option String := none
  healthcareclaimtypeidp : Option String := none
deriving DecidableEq, Repr

/-- Parse an event/period datetime string down to a `date`
(`parse_datetime_to_date` + `date.fromisoformat`, as in the source). -/
def parseClaimDate (w : String) : Option Date :=
  let parsed := parse_datetime_to_date (some w)
  if parsed ≠ "" then date_fromisoformat parsed else none

/-- `to_synthea.claims._find_event_by_code`: date of the first event whose
type carries the given code and whose `whenDateTime` parses. -/
def _find_event_by_code (events : List ClaimEvent) (event_code : String) :
    Option Date :=
  events.findSome? (fun event =>
    (event.type.getD ⟨[], none⟩).coding.findSome? (fun coding =>
      if coding.code.getD "" = event_code then
        match event.whenDateTime with
        | some w => if w ≠ "" then parseClaimDate w else none
        | none => none
      else none))

/-- Diagnosis-slot extraction of `to_synthea.claims.convert`: first SNOMED
coding's code (break at first SNOMED system match), else the first coding's
code. -/
def _claim_diag_code (d : ClaimDiagnosis) : String :=
  let codings := (d.diagnosisCodeableConcept.getD ⟨[], none⟩).coding
  match codings with
  | [] => ""
  | c0 :: _ =>
    let snomed := codings.findSome? (fun c =>
      if substrOccurs "snomed.info" (c.system.getD "") then
        some (c.code.getD "")
      else none)
    match snomed with
    | some s => if s = "" then c0.code.getD "" else s
    | none => c0.code.getD ""

/-- The eight numbered diagnosis slots (entry `i` of the first eight
diagnoses fills slot `i`; missing entries leave `""`). -/
def diagSlots (diagnoses : List ClaimDiagnosis) : List String :=
  (List.range 8).map (fun i =>
    match (diagnoses.take 8)[i]? with
    | some d => _claim_diag_code d
    | none => "")

/-- Primary/secondary insurance extraction (first two entries; sequence 1
or focal → primary, sequence 2 or non-focal → secondary). -/
def _claim_insurance (insurance_list : List ClaimInsurance) :
    String × String :=
  (insurance_list.take 2).enum.foldl (fun acc p =>
    let i := p.1
    let ins := p.2
    match ins.coverage with
    | none => acc
    | some cov =>
      let coverage_id := extract_reference_id cov
      let sequence := ins.sequence.getD (i + 1)
      let focal := ins.focal.getD (sequence = 1)
      if sequence = 1 ∨ focal then (coverage_id, acc.2)
      else if sequence = 2 ∨ ¬focal then (acc.1, coverage_id)
      else acc) ("", "")

/-- `to_synthea.claims.convert`: FHIR R4 Claim → Synthea Claim, plus the
warning events emitted. -/
def claim_to_synthea (src : FhirClaim) : SyntheaClaim × List String :=
  let resource_id := src.id.getD ""
  let patient_id :=
    match src.patient with
    | some r => extract_reference_id r
    | none => ""
  let provider_id :=
    match src.provider with
    | some r => extract_reference_id r
    | none => ""
  let ins := _claim_insurance src.insurance
  let department_id := extract_extension_string src.extension
    "http://synthea.tools/StructureDefinition/department-id"
  let patient_department_id := extract_extension_string src.extension
    "http://synthea.tools/StructureDefinition/patient-department-id"
  let diagnosis_codes := diagSlots src.diagnosis
  let appointment_id :=
    match src.item with
    | [] => ""
    | first_item :: _ =>
      (match first_item.encounter with
       | [] => ""
       | first_encounter :: _ => extract_reference_id first_encounter)
  let current_illness_date := _find_event_by_code src.event "onset"
  let last_billed_date1 := _find_event_by_code src.event "bill-primary"
  let last_billed_date2 := _find_event_by_code src.event "bill-secondary"
  let last_billed_datep := _find_event_by_code src.event "bill-patient"
  let billable_period := src.billablePeriod.getD {}
  let service_date :=
    match billable_period.start with
    | some s => if s ≠ "" then parseClaimDate s else none
    | none =>
      (match billable_period.stop with
       | some e => if e ≠ "" then parseClaimDate e else none
       | none => none)
  let supervising_provider_id :=
    (src.careTeam.findSome? (fun team_member =>
      if (team_member.role.getD ⟨[], none⟩).text.getD "" = "supervising" then
        match team_member.provider with
        | some p => some (extract_reference_id p)
        | none => none
      else none)).getD ""
  let healthcare_claim_type_id1 :=
    match (src.type.getD ⟨[], none⟩).coding with
    | [] => ""
    | c :: _ =>
      if c.code.getD "" = "professional" then "1"
      else if c.code.getD "" = "institutional" then "2"
      else ""
  let healthcare_claim_type_id2 :=
    match (src.subType.getD ⟨[], none⟩).coding with
    | [] => ""
    | c :: _ => c.code.getD ""
  let warnings : List String :=
    if src.diagnosis.length > 8 then
      ["Claim has more than 8 diagnoses; only first 8 preserved"]
    else []
  (SyntheaClaim.mk
    (orNone resource_id)
    (orNone patient_id)
    (orNone provider_id)
    (orNone ins.1)
    (orNone ins.2)
    (orNone department_id)
    (orNone patient_department_id)
    (orNone (diagnosis_codes.getD 0 ""))
    (orNone (diagnosis_codes.getD 1 ""))
    (orNone (diagnosis_codes.getD 2 ""))
    (orNone (diagnosis_codes.getD 3 ""))
    (orNone (diagnosis_codes.getD 4 ""))
    (orNone (diagnosis_codes.getD 5 ""))
    (orNone (diagnosis_codes.getD 6 ""))
    (orNone (diagnosis_codes.getD 7 ""))
    none
    (orNone appointment_id)
    current_illness_date
    service_date
    (orNone supervising_provider_id)
    none none none none none none
    last_billed_date1
    last_billed_date2
    last_billed_datep
    (orNone healthcare_claim_type_id1)
    (orNone healthcare_claim_type_id2)
    none,
   warnings)

/-! ## Bundle orchestration (`bundle.py`) -/

/-- The resource payload of a bundle entry. -/
inductive BResource where
  | patient (p : FhirPatient)
  | encounter (e : FhirEncounter)
  | condition (c : FhirCondition)
  | allergy (a : FhirAllergy)
deriving DecidableEq, Repr

/-- A bundle entry: `fullUrl` plus resource. -/
structure BundleEntry where
  fullUrl : String
  resource : BResource
deriving DecidableEq, Repr

/-- A FHIR Bundle. -/
structure Bundle where
  type : String
  entry : List BundleEntry
deriving DecidableEq, Repr

/-- Python `f"..{x}.."` rendering of an optional string. -/
def pyStr : Option String → String
  | none => "None"
  | some s => s

/-- The encounter-id → encounter-reference map built by `patient_bundle`
(last write wins, as in a Python dict). -/
def encounterRefs (encounters : List SyntheaEncounter)
    (patient_ref : String) : List (String × String) :=
  encounters.map (fun enc =>
    let fhir_enc := encounter_to_fhir enc (some patient_ref) none none
    (pyStr enc.id, "Encounter/" ++ pyStr fhir_enc.id))

/-- Python dict lookup on an association list built left to right
(later bindings shadow earlier ones). -/
def dictGet (assoc : List (String × String)) (key : String) :
    Option String :=
  match (assoc.reverse).find? (fun p => p.1 = key) with
  | some p => some p.2
  | none => none

/-- `bundle.patient_bundle`: one parent patient plus related lists →
a collection Bundle with auto-wired references. -/
def patient_bundle (patient : SyntheaPatient)
    (encounters : List SyntheaEncounter)
    (conditions : List SyntheaCondition)
    (allergies : List SyntheaAllergy) : Bundle :=
  let fhir_patient := patient_to_fhir patient
  let patient_ref := "Patient/" ++ pyStr fhir_patient.id
  let patientEntry : BundleEntry :=
    ⟨"urn:uuid:" ++ pyStr fhir_patient.id, .patient fhir_patient⟩
  let encEntries : List BundleEntry :=
    encounters.map (fun enc =>
      let fhir_enc := encounter_to_fhir enc (some patient_ref) none none
      ⟨"urn:uuid:" ++ pyStr fhir_enc.id, .encounter fhir_enc⟩)
  let enc_refs := encounterRefs encounters patient_ref
  let condEntries : List BundleEntry :=
    conditions.map (fun cond =>
      let enc_ref :=
        match cond.encounter with
        | some e => if pyStr (some e) ≠ "" then dictGet enc_refs e else none
        | none => none
      let fhir_cond := condition_to_fhir cond (some patient_ref) enc_ref
      ⟨"urn:uuid:" ++ fhir_cond.id, .condition fhir_cond⟩)
  let allergyEntries : List BundleEntry :=
    allergies.map (fun allrgy =>
      let fhir_allergy := allergy_to_fhir allrgy
      ⟨"urn:uuid:" ++ fhir_allergy.id, .allergy fhir_allergy⟩)
  ⟨"collection", patientEntry :: (encEntries ++ condEntries ++ allergyEntries)⟩

/-! ## Claim C7 — reference integrity (corrected) -/

/-- C7 counterexample: an id that itself contains a slash constructs a
non-null reference whose decomposition is NOT the original id (the
decomposer keeps only the last `/`-separated component). -/
theorem C7_counterexample :
    create_reference "Patient" (some "a/b") = some ⟨"Patient/a/b"⟩ ∧
    refLastComponent "Patient/a/b" = "b" ∧ ("b" : String) ≠ "a/b" := by
  refine ⟨by decide, by decide, by decide⟩

/-- C7 (amended): construction returns null exactly when the id is missing,
empty, or whitespace-only; every non-null reference is literally
`kind ++ "/" ++ strip(id)` (so its kind prefix is the given kind), and
decomposition recovers `strip(id)` provided the stripped id contains no
slash of its own. -/
theorem C7_reference_integrity_amended (kind : String) (id : Option String) :
    (create_reference kind id = none ↔
      (id = none ∨ pyStrip (id.getD "") = "")) ∧
    (∀ r, create_reference kind id = some r →
      r.reference = kind ++ "/" ++ pyStrip (id.getD "") ∧
      (¬ '/' ∈ (pyStrip (id.getD "")).data →
        refLastComponent r.reference = pyStrip (id.getD ""))) := by
  constructor
  · unfold create_reference
    match id with
    | none => simp
    | some rid =>
      by_cases h0 : rid = ""
      · subst h0
        simp
        decide
      · by_cases h1 : pyStrip rid = "" <;> simp [h0, h1]
  · intro r hr
    match id with
    | none => exact absurd hr (by simp [create_reference])
    | some rid =>
      have hr2 : (if rid = "" ∨ pyStrip rid = "" then none
          else some ⟨kind ++ "/" ++ pyStrip rid⟩ : Option Ref) = some r := hr
      simp only [Option.getD]
      by_cases h0 : rid = ""
      · rw [if_pos (Or.inl h0)] at hr2
        exact absurd hr2 (by simp)
      · by_cases h1 : pyStrip rid = ""
        · rw [if_pos (Or.inr h1)] at hr2
          exact absurd hr2 (by simp)
        · rw [if_neg (by tauto)] at hr2
          obtain rfl : (⟨kind ++ "/" ++ pyStrip rid⟩ : Ref) = r :=
            Option.some_injective _ hr2
          refine ⟨rfl, fun hs => ?_⟩
          have hdata : (kind ++ "/" ++ pyStrip rid).data =
              (kind ++ "/").data ++ (pyStrip rid).data := data_append _ _
          have hmem : ('/' : Char) ∈ (kind ++ "/" ++ pyStrip rid).data := by
            rw [hdata]
            exact List.mem_append_left _ (by
              show '/' ∈ kind.data ++ ['/']
              exact List.mem_append_right _ (List.mem_singleton.mpr rfl))
          unfold refLastComponent
          rw [if_pos (List.elem_eq_true_of_mem hmem)]
          have hrev : (kind ++ "/" ++ pyStrip rid).data.reverse =
              (pyStrip rid).data.reverse ++ '/' ::
                (kind.data).reverse := by
            rw [hdata, List.reverse_append]
            show _ = (pyStrip rid).data.reverse ++ ('/' :: kind.data.reverse)
            congr 1
            show (kind.data ++ ['/']).reverse = '/' :: kind.data.reverse
            simp
          rw [hrev, takeWhile_append_stop _ _ _ _
            (fun x hx => by
              simp only [decide_eq_true_eq]
              intro hxe
              exact hs (by
                subst hxe
                exact List.mem_reverse.mp hx))
            (by simp)]
          simp

/-- Witness for C7 (amended) at concrete inputs. -/
theorem C7_witness :
    create_reference "Patient" (some " 123 ") = some ⟨"Patient/123"⟩ ∧
    refLastComponent "Patient/123" = "123" ∧
    create_reference "Patient" (some "  ") = none := by
  have h := C7_reference_integrity_amended "Patient" (some " 123 ")
  have h2 := (C7_reference_integrity_amended "Patient" (some "  ")).1.mpr
    (Or.inr (by decide))
  have hc : create_reference "Patient" (some " 123 ") =
      some ⟨"Patient/123"⟩ := by decide
  refine ⟨hc, ?_, h2⟩
  have h3 := (h.2 ⟨"Patient/123"⟩ hc).2 (by decide)
  have hstrip : pyStrip ((some " 123 ").getD "") = "123" := by decide
  rw [hstrip] at h3
  exact h3

/-! ## Claim C8 — datetime normalization (corrected) -/

theorem isoformatL_offset (dt : PyDateTime) (o : Int) (h : dt.offset = some o) :
    isoformatL dt =
      (printDateL dt.date ++ 'T' :: printTimeL dt.time) ++ printOffsetL o := by
  simp [isoformatL, h, List.append_assoc]

theorem hasOffsetSuffix_isoformat (dt : PyDateTime) (o : Int)
    (h : dt.offset = some o) : hasOffsetSuffix (isoformat dt) = true := by
  unfold isoformat
  rw [isoformatL_offset dt o h]
  exact hasOffsetSuffix_append _ o

theorem parseDateL_valid (cs : List Char) (d : Date) (rest : List Char)
    (h : parseDateL cs = some (d, rest)) : d.validB = true := by
  unfold parseDateL at h
  repeat' split at h
  all_goals simp_all

theorem fromisoformatL_valid (cs : List Char) (dt : PyDateTime)
    (h : fromisoformatL cs = some dt) : dt.date.validB = true := by
  unfold fromisoformatL at h
  split at h
  · exact absurd h (by simp)
  · rename_i d rest hparse
    have hd := parseDateL_valid cs d rest hparse
    split at h
    · obtain rfl := Option.some_injective _ h
      exact hd
    · split at h
      · split at h
        · exact absurd h (by simp)
        · split at h
          · split at h
            · obtain rfl := Option.some_injective _ h
              exact hd
            · split at h
              · exact absurd h (by simp)
              · obtain rfl := Option.some_injective _ h
                exact hd
          · exact absurd h (by simp)
      · exact absurd h (by simp)

/-- C8 counterexample: `chidian_ext.to_datetime` (a full-mode datetime
extractor) does NOT attach a UTC offset to a valid timezone-less input: the
output is returned without any explicit offset (whereas
`fhir_lib.format_datetime` does attach one on the same input). -/
theorem C8_counterexample :
    to_datetime (some "2020-01-15T10:30:00") "" = "2020-01-15T10:30:00" ∧
    hasOffsetSuffix "2020-01-15T10:30:00" = false ∧
    format_datetime (some "2020-01-15T10:30:00") =
      some "2020-01-15T10:30:00+00:00" := by
  refine ⟨by decide, by decide, by decide⟩

/-- C8 (amended): no datetime extractor ever fails (each is a total
function returning the caller's default on empty/malformed input);
`format_datetime` returns, on success, an ISO-8601 string carrying an
explicit UTC offset (UTC assumed when the input has none); `format_date`
and `to_date_str` return, on success, a `YYYY-MM-DD` rendering of a valid
date; but `to_datetime` only echoes an offset already present in the input
— its output on a valid timezone-less input is an ISO string without any
offset. -/
theorem C8_datetime_normalization_amended (s : Option String) (dflt : String) :
    (format_datetime s = none ∨
      ∃ dt : PyDateTime, dt.offset.isSome ∧
        format_datetime s = some (isoformat dt) ∧
        hasOffsetSuffix (isoformat dt) = true) ∧
    (∀ str dt0, s = some str → str ≠ "" → pyStrip str ≠ "" →
      fromisoformat (replaceZ (pyStrip str)) = some dt0 → dt0.offset = none →
      format_datetime s = some (isoformat { dt0 with offset := some 0 })) ∧
    (format_date s = none ∨
      ∃ d : Date, d.validB = true ∧ format_date s = some (printDate d)) ∧
    (to_datetime s dflt = dflt ∨
      ∃ dt : PyDateTime, to_datetime s dflt = isoformat dt) ∧
    (to_date_str s dflt = dflt ∨
      ∃ d : Date, d.validB = true ∧ to_date_str s dflt = printDate d) :=
    by
  refine ⟨?_, ?_, ?_, ?_, ?_⟩
  · match s with
    | none => exact Or.inl rfl
    | some str =>
      by_cases hemp : str = "" ∨ pyStrip str = ""
      · exact Or.inl (by simp [format_datetime, hemp])
      · cases hp : fromisoformat (replaceZ (pyStrip str)) with
        | none => exact Or.inl (by simp [format_datetime, hemp, hp])
        | some dt =>
          by_cases hoff : dt.offset.isSome
          · obtain ⟨o, ho⟩ := Option.isSome_iff_exists.mp hoff
            exact Or.inr ⟨dt, hoff,
              by simp [format_datetime, hemp, hp, hoff],
              hasOffsetSuffix_isoformat dt o ho⟩
          · exact Or.inr ⟨{ dt with offset := some 0 }, rfl,
              by simp [format_datetime, hemp, hp, hoff],
              hasOffsetSuffix_isoformat _ 0 rfl⟩
  · intro str dt0 hstr hne hstrip hparse hoff
    subst hstr
    have hemp : ¬ (str = "" ∨ pyStrip str = "") := by tauto
    simp [format_datetime, hemp, hparse, hoff]
  · match s with
    | none => exact Or.inl rfl
    | some str =>
      by_cases hemp : str = "" ∨ pyStrip str = ""
      · exact Or.inl (by simp [format_date, hemp])
      · cases hp : fromisoformat (replaceZ str) with
        | none => exact Or.inl (by simp [format_date, hemp, hp])
        | some dt =>
          exact Or.inr ⟨dt.date, fromisoformatL_valid _ dt hp,
            by simp [format_date, hemp, hp]⟩
  · match s with
    | none => exact Or.inl rfl
    | some str =>
      by_cases hemp : str = ""
      · exact Or.inl (by simp [to_datetime, hemp])
      · cases hp : fromisoformat (replaceZ str) with
        | none => exact Or.inl (by simp [to_datetime, hemp, hp])
        | some dt =>
          exact Or.inr ⟨dt, by simp [to_datetime, hemp, hp]⟩
  · match s with
    | none => exact Or.inl rfl
    | some str =>
      by_cases hemp : str = ""
      · exact Or.inl (by simp [to_date_str, hemp])
      · cases hp : fromisoformat (replaceZ str) with
        | none => exact Or.inl (by simp [to_date_str, hemp, hp])
        | some dt =>
          exact Or.inr ⟨dt.date, fromisoformatL_valid _ dt hp,
            by simp [to_date_str, hemp, hp, printDate]⟩

/-- Witness for C8 (amended) at a concrete input: the UTC-assumed clause,
applied to a valid timezone-less datetime string. -/
theorem C8_witness :
    format_datetime (some "2021-06-01 07:00:30") =
      some "2021-06-01T07:00:30+00:00" := by
  have h2 := (C8_datetime_normalization_amended (some "2021-06-01 07:00:30")
    "").2.1 "2021-06-01 07:00:30"
    ⟨⟨2021, 6, 1⟩, ⟨7, 0, 30, 0⟩, none⟩ rfl (by decide) (by decide)
    (by decide) rfl
  rw [h2]
  decide

/-! ## Claim C5 — encounter class mapping (corrected) -/

def emerConcept : CodeableConcept :=
  ⟨[⟨some actCodeSystem, some "EMER", some "emergency"⟩], none⟩
def ambConcept : CodeableConcept :=
  ⟨[⟨some actCodeSystem, some "AMB", some "ambulatory"⟩], none⟩
def impConcept : CodeableConcept :=
  ⟨[⟨some actCodeSystem, some "IMP", some "inpatient encounter"⟩], none⟩

/-- C5 counterexample: a nested class whose first coding is from a
non-ActCode system with display "Outpatient" — a class value outside the
enumeration — converts to flat class "outpatient", not the claimed default
"ambulatory" (the code falls back to the lowercased display text). -/
theorem C5_counterexample :
    (encounter_to_synthea
      { status := "finished",
        class_fhir :=
          [⟨[⟨some "http://example.org/fhir/codes", some "XX",
              some "Outpatient"⟩], none⟩] }).1.encounterclass =
      some "outpatient" ∧
    ("outpatient" : String) ≠ "ambulatory" ∧
    "outpatient" ∉ (["ambulatory", "emergency", "inpatient", "wellness",
      "urgentcare"] : List String) ∧
    _map_encounter_class "Outpatient" = none := by
  refine ⟨by decide, by decide, by decide, by decide⟩

/-- The reverse class mapper on a first coding with explicit fields
(definitional unfolding). -/
theorem map_rev_first (sys code : String) (d : Option String)
    (rest : List Coding) (txt : Option String)
    (rest2 : List CodeableConcept) :
    _map_encounter_class_rev (some (.concepts
      (⟨⟨some sys, some code, d⟩ :: rest, txt⟩ :: rest2))) =
      (if substrOccurs "v3-ActCode" sys = true ∨
          substrOccurs "terminology.hl7.org/CodeSystem/v3-ActCode" sys =
            true then
        (if code = "AMB" then "ambulatory"
         else if code = "EMER" then "emergency"
         else if code = "IMP" then "inpatient"
         else if code = "ACUTE" then "inpatient"
         else "")
       else if d.getD "" ≠ "" then pyLower (d.getD "") else "") := rfl

/-- The encounter class produced by the reverse converter, given the raw
mapped class string. -/
theorem encounterclass_eq (e : FhirEncounter) :
    (encounter_to_synthea e).1.encounterclass =
      some (if isValidClass
          (if e.class_fhir ≠ [] then
            _map_encounter_class_rev (some (.concepts e.class_fhir))
          else "") then
        (if e.class_fhir ≠ [] then
          _map_encounter_class_rev (some (.concepts e.class_fhir))
        else "")
      else "ambulatory") := rfl

/-- C5 (amended): the class table holds in both directions — flat
"emergency" → EMER, "ambulatory"/"wellness"/"urgentcare" → AMB,
"inpatient" → IMP; a nested document whose class code is EMER (ActCode
system) converts back to flat "emergency"; every reverse conversion yields
a class in the valid flat set; an ActCode coding whose code is outside the
table (AMB/EMER/IMP/ACUTE) defaults to "ambulatory"; but a non-ActCode
coding falls back to its lowercased display text whenever that names a
valid flat class, "ambulatory" otherwise. -/
theorem C5_encounter_class_amended :
    (_map_encounter_class "emergency" = some emerConcept ∧
     _map_encounter_class "ambulatory" = some ambConcept ∧
     _map_encounter_class "wellness" = some ambConcept ∧
     _map_encounter_class "urgentcare" = some ambConcept ∧
     _map_encounter_class "inpatient" = some impConcept) ∧
    (∀ (e : FhirEncounter) (d : Option String) (rest : List Coding)
        (txt : Option String) (rest2 : List CodeableConcept),
      e.class_fhir = ⟨⟨some actCodeSystem, some "EMER", d⟩ :: rest, txt⟩ :: rest2 →
      (encounter_to_synthea e).1.encounterclass = some "emergency") ∧
    (∀ e : FhirEncounter, ∃ s,
      (encounter_to_synthea e).1.encounterclass = some s ∧
      isValidClass s = true) ∧
    (∀ (e : FhirEncounter) (code sys : String) (d : Option String)
        (rest : List Coding) (txt : Option String)
        (rest2 : List CodeableConcept),
      e.class_fhir = ⟨⟨some sys, some code, d⟩ :: rest, txt⟩ :: rest2 →
      (substrOccurs "v3-ActCode" sys = true ∨
        substrOccurs "terminology.hl7.org/CodeSystem/v3-ActCode" sys = true) →
      code ∉ (["AMB", "EMER", "IMP", "ACUTE"] : List String) →
      (encounter_to_synthea e).1.encounterclass = some "ambulatory") ∧
    (∀ (e : FhirEncounter) (code sys d : String) (rest : List Coding)
        (txt : Option String) (rest2 : List CodeableConcept),
      e.class_fhir = ⟨⟨some sys, some code, some d⟩ :: rest, txt⟩ :: rest2 →
      substrOccurs "v3-ActCode" sys = false →
      substrOccurs "terminology.hl7.org/CodeSystem/v3-ActCode" sys = false →
      d ≠ "" →
      (encounter_to_synthea e).1.encounterclass =
        some (if isValidClass (pyLower d) then pyLower d
              else "ambulatory")) := by
  refine ⟨⟨by decide, by decide, by decide, by decide, by decide⟩,
    ?_, ?_, ?_, ?_⟩
  · intro e d rest txt rest2 hclass
    have hsys : substrOccurs "v3-ActCode" actCodeSystem = true := by decide
    rw [encounterclass_eq, hclass,
      if_pos (show (⟨⟨some actCodeSystem, some "EMER", d⟩ :: rest, txt⟩ ::
        rest2 : List CodeableConcept) ≠ [] by simp),
      map_rev_first, if_pos (Or.inl hsys)]
    decide
  · intro e
    rw [encounterclass_eq]
    by_cases hmem : isValidClass
        (if e.class_fhir ≠ [] then
          _map_encounter_class_rev (some (.concepts e.class_fhir))
        else "") = true
    · exact ⟨_, by rw [if_pos hmem], hmem⟩
    · exact ⟨"ambulatory", by rw [if_neg hmem], by decide⟩
  · intro e code sys d rest txt rest2 hclass hsys hcode
    simp only [List.mem_cons, List.not_mem_nil, or_false] at hcode
    push_neg at hcode
    obtain ⟨hc1, hc2, hc3, hc4⟩ := hcode
    rw [encounterclass_eq, hclass,
      if_pos (show (⟨⟨some sys, some code, d⟩ :: rest, txt⟩ ::
        rest2 : List CodeableConcept) ≠ [] by simp),
      map_rev_first, if_pos hsys,
      if_neg hc1, if_neg hc2, if_neg hc3, if_neg hc4]
    decide
  · intro e code sys d rest txt rest2 hclass hsys1 hsys2 hd
    have hsys : ¬ (substrOccurs "v3-ActCode" sys = true ∨
        substrOccurs "terminology.hl7.org/CodeSystem/v3-ActCode" sys =
          true) := by
      simp [hsys1, hsys2]
    have hdg : ((some d).getD "") ≠ "" := hd
    rw [encounterclass_eq, hclass,
      if_pos (show (⟨⟨some sys, some code, some d⟩ :: rest, txt⟩ ::
        rest2 : List CodeableConcept) ≠ [] by simp),
      map_rev_first, if_neg hsys, if_pos hdg]
    rfl

/-- Witness for C5 (amended) at a concrete input. -/
theorem C5_witness :
    (encounter_to_synthea
      { status := "finished",
        class_fhir := [emerConcept] }).1.encounterclass =
      some "emergency" :=
  (C5_encounter_class_amended).2.1
    { status := "finished", class_fhir := [emerConcept] }
    (some "emergency") [] none [] rfl

/-! ## Claim C9 — deceasedBoolean default -/

/-- C9: for every flat patient whose deathdate is missing, the flat→nested
conversion sets `deceasedBoolean = False` (not merely omitting the field)
and no `deceasedDateTime`; when deathdate is present and parses, the output
carries `deceasedDateTime` and no `deceasedBoolean`. -/
theorem C9_deceased_default (r : SyntheaPatient) :
    (r.deathdate = none →
      (patient_to_fhir r).deceasedBoolean = some false ∧
      (patient_to_fhir r).deceasedDateTime = none) ∧
    (∀ d s, r.deathdate = some d →
      format_datetime (some (printDate d)) = some s →
      (patient_to_fhir r).deceasedDateTime = some s ∧
      (patient_to_fhir r).deceasedBoolean = none) := by
  constructor
  · intro h
    simp [patient_to_fhir, h, to_str_date]
  · intro d s hd hs
    simp [patient_to_fhir, hd, to_str_date, printDate_ne_empty, hs]

/-- Witness for C9 at concrete inputs. -/
theorem C9_witness :
    (patient_to_fhir {}).deceasedBoolean = some false ∧
    (patient_to_fhir { deathdate := some ⟨2020, 3, 4⟩ }).deceasedDateTime =
      some "2020-03-04T00:00:00+00:00" :=
  ⟨((C9_deceased_default {}).1 rfl).1,
   ((C9_deceased_default { deathdate := some ⟨2020, 3, 4⟩ }).2
     ⟨2020, 3, 4⟩ "2020-03-04T00:00:00+00:00" rfl (by decide)).1⟩

/-! ## Claim C10 — reverse gender mapping -/

/-- C10: in the nested→flat patient conversion, every gender other than
(case-insensitively) "female" — including "male", "other", "unknown", the
empty string and an absent gender — maps to "M"; "female" maps to "F"; the
output is never empty. -/
theorem C10_gender_mapping (g : Option String) :
    (_map_fhir_gender g = "M" ∨ _map_fhir_gender g = "F") ∧
    (_map_fhir_gender g = "F" ↔ ∃ s, g = some s ∧ pyLower s = "female") ∧
    (∀ s, g = some s → pyLower s ≠ "female" → _map_fhir_gender g = "M") ∧
    (g = none → _map_fhir_gender g = "M") ∧
    _map_fhir_gender g ≠ "" := by
  unfold _map_fhir_gender
  match g with
  | none => simp
  | some s =>
    by_cases h1 : s = ""
    · subst h1
      simp
      decide
    · by_cases h2 : pyLower s = "male"
      · have h3 : ¬ pyLower s = "female" := by
          rw [h2]
          decide
        simp [h1, h2, h3]
      · by_cases h3 : pyLower s = "female"
        · simp [h1, h2, h3]
        · simp [h1, h2, h3]

/-- Witness for C10 at concrete inputs. -/
theorem C10_witness :
    _map_fhir_gender (some "Other") = "M" ∧
    _map_fhir_gender (some "female") = "F" ∧
    _map_fhir_gender none = "M" :=
  ⟨(C10_gender_mapping (some "Other")).2.2.1 "Other" rfl (by decide),
   ((C10_gender_mapping (some "female")).2.1).mpr ⟨"female", rfl, by decide⟩,
   (C10_gender_mapping none).2.2.2.1 rfl⟩

/-! ## Claim C6 — absent gender (corrected) -/

/-- C6 counterexample: a flat patient with no gender converts to a nested
document that carries NO gender field at all (not a fallback code); the
fallback "M" only appears after converting back to flat. -/
theorem C6_counterexample :
    (patient_to_fhir { gender := none }).gender = none ∧
    (patient_to_synthea (patient_to_fhir { gender := none })).gender =
      some "M" := by
  constructor <;> rfl

/-- C6 (amended): for every flat patient whose gender is absent (or blank),
the flat→nested conversion omits the gender field entirely, and converting
that nested document back to flat yields the fixed fallback "M". -/
theorem C6_gender_default_amended (r : SyntheaPatient)
    (h : to_str r.gender = "") :
    (patient_to_fhir r).gender = none ∧
    (patient_to_synthea (patient_to_fhir r)).gender = some "M" := by
  have h1 : (patient_to_fhir r).gender = none := by
    simp [patient_to_fhir, map_gender, h]
  refine ⟨h1, ?_⟩
  simp [patient_to_synthea, _map_fhir_gender, h1]

/-- Witness for C6 (amended) at a concrete input. -/
theorem C6_witness :
    (patient_to_fhir { id := some "p9" }).gender = none ∧
    (patient_to_synthea (patient_to_fhir { id := some "p9" })).gender =
      some "M" :=
  C6_gender_default_amended { id := some "p9" } rfl

/-! ## Claim C3 — allergy reaction truncation -/

/-- C3: the nested→flat allergy conversion preserves exactly the first two
reaction entries — manifestation code (coded-value extraction of the first
manifestation, preferring SNOMED), description, and upper-cased severity —
in the numbered slots; entries past the second never influence the result;
and exactly one warning event (never an error) is emitted iff the document
has more than two reactions. -/
theorem C3_allergy_truncation (doc : FhirAllergy) :
    ((allergy_to_synthea doc).1 =
      (allergy_to_synthea { doc with reaction := doc.reaction.take 2 }).1) ∧
    (∀ r1 rest, doc.reaction = r1 :: rest →
      (allergy_to_synthea doc).1.reaction1 =
        orNone (match r1.manifestation with
          | [] => ""
          | m :: _ => extract_coding_code m.asConcept [snomedSystem]) ∧
      (allergy_to_synthea doc).1.description1 =
        orNone (r1.description.getD "") ∧
      (∀ sev, r1.severity = some sev → sev ≠ "" →
        (allergy_to_synthea doc).1.severity1 = orNone (pyUpper sev))) ∧
    (∀ r1 r2 rest, doc.reaction = r1 :: r2 :: rest →
      (allergy_to_synthea doc).1.reaction2 =
        orNone (match r2.manifestation with
          | [] => ""
          | m :: _ => extract_coding_code m.asConcept [snomedSystem]) ∧
      (allergy_to_synthea doc).1.description2 =
        orNone (r2.description.getD "") ∧
      (∀ sev, r2.severity = some sev → sev ≠ "" →
        (allergy_to_synthea doc).1.severity2 = orNone (pyUpper sev))) ∧
    (allergy_to_synthea doc).2.length =
      (if doc.reaction.length > 2 then 1 else 0) := by
  refine ⟨?_, ?_, ?_, ?_⟩
  · rcases h : doc.reaction with _ | ⟨r1, _ | ⟨r2, rest⟩⟩ <;>
      simp [allergy_to_synthea, h]
  · intro r1 rest h
    rcases rest with _ | ⟨r2, rest2⟩ <;>
      refine ⟨by simp [allergy_to_synthea, h, reactionSlot],
        by simp [allergy_to_synthea, h, reactionSlot], ?_⟩ <;>
      (intro sev hsev hne
       simp [allergy_to_synthea, h, reactionSlot, hsev, hne])
  · intro r1 r2 rest h
    refine ⟨by simp [allergy_to_synthea, h, reactionSlot],
      by simp [allergy_to_synthea, h, reactionSlot], ?_⟩
    intro sev hsev hne
    simp [allergy_to_synthea, h, reactionSlot, hsev, hne]
  · by_cases hlen : doc.reaction.length > 2 <;>
      simp [allergy_to_synthea, hlen]

/-- Witness for C3 at a concrete document with three reactions. -/
theorem C3_witness :
    (allergy_to_synthea
      { id := "a1", clinicalStatus := ⟨[], none⟩,
        verificationStatus := ⟨[], none⟩,
        reaction :=
          [⟨[⟨none, [⟨some snomedSystem, some "271807003", none⟩], none⟩],
            some "rash", some "mild"⟩,
           ⟨[⟨none, [⟨some snomedSystem, some "267036007", none⟩], none⟩],
            some "dyspnea", some "severe"⟩,
           ⟨[], some "dropped", some "moderate"⟩] }).1.reaction1 =
      some "271807003" ∧
    (allergy_to_synthea
      { id := "a1", clinicalStatus := ⟨[], none⟩,
        verificationStatus := ⟨[], none⟩,
        reaction :=
          [⟨[⟨none, [⟨some snomedSystem, some "271807003", none⟩], none⟩],
            some "rash", some "mild"⟩,
           ⟨[⟨none, [⟨some snomedSystem, some "267036007", none⟩], none⟩],
            some "dyspnea", some "severe"⟩,
           ⟨[], some "dropped", some "moderate"⟩] }).1.severity2 =
      some "SEVERE" ∧
    (allergy_to_synthea
      { id := "a1", clinicalStatus := ⟨[], none⟩,
        verificationStatus := ⟨[], none⟩,
        reaction :=
          [⟨[⟨none, [⟨some snomedSystem, some "271807003", none⟩], none⟩],
            some "rash", some "mild"⟩,
           ⟨[⟨none, [⟨some snomedSystem, some "267036007", none⟩], none⟩],
            some "dyspnea", some "severe"⟩,
           ⟨[], some "dropped", some "moderate"⟩] }).2.length = 1 := by
  refine ⟨?_, ?_, ?_⟩
  · rw [((C3_allergy_truncation _).2.1 _ _ rfl).1]
    decide
  · rw [((C3_allergy_truncation _).2.2.1 _ _ _ rfl).2.2 "severe" rfl
      (by decide)]
    decide
  · rw [(C3_allergy_truncation _).2.2.2]
    decide

/-! ## Claim C4 — claim diagnosis slots -/

/-- The numbered diagnosis slot fields of a flat claim, indexed 0..7. -/
def claimDiagField (c : SyntheaClaim) : Nat → Option String
  | 0 => c.diagnosis1
  | 1 => c.diagnosis2
  | 2 => c.diagnosis3
  | 3 => c.diagnosis4
  | 4 => c.diagnosis5
  | 5 => c.diagnosis6
  | 6 => c.diagnosis7
  | 7 => c.diagnosis8
  | _ => none

/-- C4: the nested→flat claim conversion maps diagnosis entry `i` (of the
first eight) into numbered slot `i+1`, using the per-entry code extraction
(`_claim_diag_code`); entries past the eighth never influence the result;
and exactly one warning event (never an error) is emitted iff the document
has more than eight diagnoses. -/
theorem C4_claim_diagnoses (doc : FhirClaim) :
    ((claim_to_synthea doc).1 =
      (claim_to_synthea { doc with diagnosis := doc.diagnosis.take 8 }).1) ∧
    (∀ i d, i < 8 → doc.diagnosis[i]? = some d →
      claimDiagField (claim_to_synthea doc).1 i =
        orNone (_claim_diag_code d)) ∧
    (∀ i, i < 8 → doc.diagnosis[i]? = none →
      claimDiagField (claim_to_synthea doc).1 i = none) ∧
    (claim_to_synthea doc).2.length =
      (if doc.diagnosis.length > 8 then 1 else 0) := by
  have hslots : ∀ i, i < 8 →
      (diagSlots doc.diagnosis).getD i "" =
        (match doc.diagnosis[i]? with
         | some d => _claim_diag_code d
         | none => "") := by
    intro i hi
    have htake : (doc.diagnosis.take 8)[i]? = doc.diagnosis[i]? := by
      rw [List.getElem?_take]
      simp [hi]
    interval_cases i <;>
      simp [diagSlots, htake]
  refine ⟨?_, ?_, ?_, ?_⟩
  · have : diagSlots (doc.diagnosis.take 8) = diagSlots doc.diagnosis := by
      simp [diagSlots, List.take_take]
    simp [claim_to_synthea, this]
  · intro i d hi hd
    have h1 := hslots i hi
    rw [hd] at h1
    interval_cases i <;>
      simpa [claim_to_synthea, claimDiagField, h1] using
        congrArg orNone h1
  · intro i hi hd
    have h1 := hslots i hi
    rw [hd] at h1
    interval_cases i <;>
      simpa [claim_to_synthea, claimDiagField, orNone] using
        congrArg orNone h1
  · by_cases hlen : doc.diagnosis.length > 8 <;>
      simp [claim_to_synthea, hlen]

/-- A 9-diagnosis claim document used as the C4 witness. -/
def claim9 : FhirClaim :=
  { diagnosis :=
      (List.range 9).map (fun i =>
        ⟨some ⟨[⟨some snomedSystem, some ("D" ++ toString (i + 1)), none⟩],
          none⟩⟩) }

/-- Witness for C4: a claim with nine diagnoses keeps exactly the first
eight, in order, and emits one warning. -/
theorem C4_witness :
    claimDiagField (claim_to_synthea claim9).1 0 = some "D1" ∧
    claimDiagField (claim_to_synthea claim9).1 7 = some "D8" ∧
    (claim_to_synthea claim9).2.length = 1 := by
  refine ⟨?_, ?_, ?_⟩
  · rw [(C4_claim_diagnoses claim9).2.1 0
      ⟨some ⟨[⟨some snomedSystem, some "D1", none⟩], none⟩⟩
      (by norm_num) (by decide)]
    decide
  · rw [(C4_claim_diagnoses claim9).2.1 7
      ⟨some ⟨[⟨some snomedSystem, some "D8", none⟩], none⟩⟩
      (by norm_num) (by decide)]
    decide
  · rw [(C4_claim_diagnoses claim9).2.2.2]
    decide

/-! ## Claim C2 — bundle assembly (corrected) -/

/-- The patient reference carried by a bundle-entry resource. -/
def BResource.patientRef : BResource → Option String
  | .patient _ => none
  | .encounter e => e.subject.map Ref.reference
  | .condition c => c.subject.map Ref.reference
  | .allergy a => a.patient.map Ref.reference

theorem patient_concat_ne_empty (s : String) : ("Patient/" ++ s) ≠ "" := by
  intro h
  have := congrArg String.data h
  rw [data_append] at this
  exact absurd this (by simp)

def cexParent : SyntheaPatient :=
  { id := some "p1", first := some "Jane", last := some "Doe",
    gender := some "F" }

def cexAllergy : SyntheaAllergy :=
  { patient := some "other", start := some "2020-01-01T00:00:00Z",
    code := some "111" }

/-- C2 counterexample: a bundle of one parent (id "p1") and one related
allergy whose embedded patient field is "other" has its allergy entry
pointing at "Patient/other", not at the parent's assigned identifier —
allergy children re-derive the reference from their own embedded field. -/
theorem C2_counterexample :
    (patient_bundle cexParent [] [] [cexAllergy]).entry.length = 2 ∧
    ("Patient/" ++ pyStr (patient_to_fhir cexParent).id) = "Patient/p1" ∧
    ((patient_bundle cexParent [] [] [cexAllergy]).entry.map
      (fun en => en.resource.patientRef)) = [none, some "Patient/other"] ∧
    (some "Patient/other" : Option String) ≠ some "Patient/p1" := by
  refine ⟨by decide, by decide, by decide, by decide⟩

/-- C2 (amended): the bundle always contains exactly one entry per input
record (1 + N); every encounter and condition entry's subject is the
parent's assigned reference (the override wins); but allergy entries keep
the patient reference derived from their own embedded patient field —
it equals the parent's only when that field matches the parent's id. -/
theorem C2_bundle_amended (p : SyntheaPatient) (encs : List SyntheaEncounter)
    (conds : List SyntheaCondition) (alls : List SyntheaAllergy) :
    ((patient_bundle p encs conds alls).entry.length =
      1 + encs.length + conds.length + alls.length) ∧
    (∀ en ∈ (patient_bundle p encs conds alls).entry, ∀ e : FhirEncounter,
      en.resource = .encounter e →
      e.subject = some ⟨"Patient/" ++ pyStr (patient_to_fhir p).id⟩) ∧
    (∀ en ∈ (patient_bundle p encs conds alls).entry, ∀ c : FhirCondition,
      en.resource = .condition c →
      c.subject = some ⟨"Patient/" ++ pyStr (patient_to_fhir p).id⟩) ∧
    (∀ al ∈ alls, ∀ pid, al.patient = some pid → pyStrip pid = pid →
      pid ≠ "" →
      (allergy_to_fhir al).patient = some ⟨"Patient/" ++ pid⟩ ∧
      ∃ en ∈ (patient_bundle p encs conds alls).entry,
        en.resource = .allergy (allergy_to_fhir al)) := by
  have hpref : ("Patient/" ++ pyStr (patient_to_fhir p).id) ≠ "" :=
    patient_concat_ne_empty _
  refine ⟨?_, ?_, ?_, ?_⟩
  · simp [patient_bundle]
    omega
  · intro en hen e he
    simp only [patient_bundle, List.mem_cons, List.mem_append,
      List.mem_map] at hen
    rcases hen with rfl | ⟨⟨enc, hmem, rfl⟩ | ⟨cond, hmem, rfl⟩⟩ |
        ⟨al, hmem, rfl⟩
    · exact absurd he (by simp)
    · simp only at he
      obtain rfl := (by injection he : _ = e)
      simp [encounter_to_fhir, pyOrS, hpref]
    · exact absurd he (by simp)
    · exact absurd he (by simp)
  · intro en hen c hc
    simp only [patient_bundle, List.mem_cons, List.mem_append,
      List.mem_map] at hen
    rcases hen with rfl | ⟨⟨enc, hmem, rfl⟩ | ⟨cond, hmem, rfl⟩⟩ |
        ⟨al, hmem, rfl⟩
    · exact absurd hc (by simp)
    · exact absurd hc (by simp)
    · simp only at hc
      obtain rfl := (by injection hc : _ = c)
      simp [condition_to_fhir, pyOrS, hpref]
    · exact absurd hc (by simp)
  · intro al hmem pid hpid hstrip hne
    constructor
    · have hts : to_str al.patient = pid := by
        rw [hpid]
        exact hstrip
      simp [allergy_to_fhir, hts, hne, create_reference, hstrip]
    · refine ⟨⟨"urn:uuid:" ++ (allergy_to_fhir al).id,
        .allergy (allergy_to_fhir al)⟩, ?_, rfl⟩
      simp only [patient_bundle, List.mem_cons, List.mem_append,
        List.mem_map]
      exact Or.inr (Or.inr ⟨al, hmem, rfl⟩)

/-- Witness for C2 (amended) at concrete inputs: the 1 + 3 entry count and
the allergy's self-derived reference. -/
theorem C2_witness :
    (patient_bundle cexParent
      [{ id := some "e1" }, { id := some "e2" }, { id := some "e3" }]
      [] []).entry.length = 4 ∧
    (allergy_to_fhir cexAllergy).patient = some ⟨"Patient/other"⟩ := by
  constructor
  · rw [(C2_bundle_amended cexParent
      [{ id := some "e1" }, { id := some "e2" }, { id := some "e3" }]
      [] []).1]
    decide
  · exact ((C2_bundle_amended cexParent [] [] [cexAllergy]).2.2.2
      cexAllergy (List.mem_singleton.mpr rfl) "other" rfl (by decide)
      (by decide)).1

/-! ## Claim C1 — patient round trip (corrected) -/

/-- An optional flat string field in canonical form: absent, or stripped
and nonempty. -/
def optClean : Option String → Prop
  | none => True
  | some s => pyStrip s = s ∧ s ≠ ""

/-- A required flat string field: present, stripped, nonempty. -/
def reqClean : Option String → Prop
  | none => False
  | some s => pyStrip s = s ∧ s ≠ ""

/-- An optional date field: absent or a valid calendar date. -/
def optValidDate : Option Date → Prop
  | none => True
  | some d => d.validB = true

instance (f : Option String) : Decidable (optClean f) :=
  match f with
  | none => isTrue trivial
  | some s => inferInstanceAs (Decidable (pyStrip s = s ∧ s ≠ ""))

instance (f : Option String) : Decidable (reqClean f) :=
  match f with
  | none => isFalse (fun h => h)
  | some s => inferInstanceAs (Decidable (pyStrip s = s ∧ s ≠ ""))

instance (f : Option Date) : Decidable (optValidDate f) :=
  match f with
  | none => isTrue trivial
  | some d => inferInstanceAs (Decidable (d.validB = true))

/-- An optional geolocation coordinate comfortably inside the finite
binary64 float range (the embedding of `float()` does not cover overflow
to infinity): absent, or of magnitude below 2 ^ 256. -/
def optFloatRange : Option Rat → Prop
  | none => True
  | some q => q.num.natAbs < 2 ^ 256 * q.den

instance (f : Option Rat) : Decidable (optFloatRange f) :=
  match f with
  | none => isTrue trivial
  | some q => inferInstanceAs (Decidable (q.num.natAbs < 2 ^ 256 * q.den))

/-- Well-formedness of a flat patient record: fields in canonical flat
form (stripped strings, enumerated codes, valid dates), the fields the
reverse conversion would otherwise default are present, the geolocation
pair is present or absent jointly, and the coordinates lie inside the
finite binary64 float range. -/
def SyntheaPatient.wellFormed (r : SyntheaPatient) : Prop :=
  optClean r.id ∧ reqClean r.ssn ∧ optClean r.drivers ∧
  optClean r.passport ∧ optClean r.pfx ∧ reqClean r.first ∧
  reqClean r.last ∧ optClean r.suffix ∧ optClean r.maiden ∧
  (r.marital = none ∨ r.marital = some "S" ∨ r.marital = some "M" ∨
    r.marital = some "D" ∨ r.marital = some "W") ∧
  reqClean r.race ∧ reqClean r.ethnicity ∧
  (r.gender = some "M" ∨ r.gender = some "F") ∧
  reqClean r.birthplace ∧ reqClean r.address ∧ reqClean r.city ∧
  reqClean r.state ∧ optClean r.county ∧ optClean r.zip ∧
  optValidDate r.birthdate ∧ optValidDate r.deathdate ∧
  ((r.lat = none ∧ r.lon = none) ∨ (r.lat.isSome ∧ r.lon.isSome)) ∧
  optFloatRange r.lat ∧ optFloatRange r.lon

/-- A fully well-formed record except that latitude is present while
longitude is absent. -/
def cexLatPatient : SyntheaPatient :=
  { id := some "p1", ssn := some "999-99-9999", first := some "Jane",
    last := some "Doe", race := some "white",
    ethnicity := some "nonhispanic", gender := some "F",
    birthplace := some "Boston", address := some "1 Main St",
    city := some "Boston", state := some "MA",
    lat := some 42, lon := none }

theorem pyStrip_printDate (d : Date) : pyStrip (printDate d) = printDate d :=
  pyStrip_of_clean _ (printDateL_clean d)

theorem replaceZ_printDate (d : Date) : replaceZ (printDate d) = printDate d := by
  unfold replaceZ printDate
  rw [replaceZL_of_noZ _ (printDateL_ne_Z d)]

/-- `format_date` is the identity on printed valid dates. -/
theorem format_date_print (d : Date) (hv : d.validB = true) :
    format_date (some (printDate d)) = some (printDate d) := by
  unfold format_date
  dsimp only
  rw [if_neg (by
    push_neg
    exact ⟨printDate_ne_empty d, by rw [pyStrip_printDate]; exact printDate_ne_empty d⟩)]
  rw [replaceZ_printDate]
  unfold fromisoformat
  show (match fromisoformatL (printDate d).data with
    | none => none
    | some dt => some (printDate dt.date)) = some (printDate d)
  rw [show (printDate d).data = printDateL d from rfl,
    fromisoformatL_printDateL d hv]

/-- `format_datetime` maps a printed valid date to the midnight-UTC
datetime string. -/
theorem format_datetime_print (d : Date) (hv : d.validB = true) :
    format_datetime (some (printDate d)) =
      some ⟨printDateL d ++ utcMidnightTail⟩ := by
  unfold format_datetime
  dsimp only
  rw [if_neg (by
    push_neg
    exact ⟨printDate_ne_empty d, by rw [pyStrip_printDate]; exact printDate_ne_empty d⟩)]
  rw [pyStrip_printDate, replaceZ_printDate]
  unfold fromisoformat
  show (match fromisoformatL (printDate d).data with
    | none => none
    | some dt => if dt.offset.isSome then some (isoformat dt)
        else some (isoformat { dt with offset := some 0 })) = _
  rw [show (printDate d).data = printDateL d from rfl,
    fromisoformatL_printDateL d hv]
  show some (isoformat ⟨d, midnight, some 0⟩) = _
  unfold isoformat
  congr 1
  show (⟨isoformatL ⟨d, midnight, some 0⟩⟩ : String) = _
  congr 1
  show printDateL d ++ 'T' :: (printTimeL midnight ++ printOffsetL 0) = _
  congr 1

theorem tail_eval : 'T' :: (printTimeL midnight ++ printOffsetL 0) =
    utcMidnightTail := by decide

theorem mk_append_ne_empty (a b : List Char) (c : Char) (rest : List Char)
    (h : a = c :: rest) : (⟨a ++ b⟩ : String) ≠ "" := by
  rw [Ne, mk_eq_empty_iff, h]
  simp

/-- Round trip of the `birthDate` string back to a date. -/
theorem parseFhirDateField_print (d : Date) (hv : d.validB = true) :
    parseFhirDateField (some (printDate d)) = some d := by
  unfold parseFhirDateField
  dsimp only
  rw [if_neg (by simp [printDate_ne_empty d])]
  have hpdd : parse_datetime_to_date (some (printDate d)) = printDate d := by
    unfold parse_datetime_to_date to_date_str
    dsimp only
    rw [if_neg (printDate_ne_empty d), replaceZ_printDate]
    unfold fromisoformat
    show (match fromisoformatL (printDate d).data with
      | none => ""
      | some dt => printDate dt.date) = printDate d
    rw [show (printDate d).data = printDateL d from rfl,
      fromisoformatL_printDateL d hv]
  rw [hpdd, if_pos (printDate_ne_empty d)]
  unfold date_fromisoformat
  have hp : parseDateL (printDateL d) = some (d, []) := by
    have := parseDateL_print d hv []
    rwa [List.append_nil] at this
  rw [show (printDate d).data = printDateL d from rfl, hp]

/-- Round trip of the `deceasedDateTime` string back to a date. -/
theorem parseFhirDateField_print_dt (d : Date) (hv : d.validB = true) :
    parseFhirDateField (some ⟨printDateL d ++ utcMidnightTail⟩) = some d := by
  have hne : (⟨printDateL d ++ utcMidnightTail⟩ : String) ≠ "" := by
    apply mk_append_ne_empty _ _ _ _ (show printDateL d = _ from rfl)
  unfold parseFhirDateField
  dsimp only
  rw [if_neg (by simp [hne])]
  have hrz : replaceZ ⟨printDateL d ++ utcMidnightTail⟩ =
      ⟨printDateL d ++ utcMidnightTail⟩ := by
    unfold replaceZ
    show (⟨replaceZL (printDateL d ++ utcMidnightTail)⟩ : String) = _
    rw [replaceZL_append, replaceZL_of_noZ _ (printDateL_ne_Z d),
      show replaceZL utcMidnightTail = utcMidnightTail by decide]
  have hpdd : parse_datetime_to_date (some ⟨printDateL d ++ utcMidnightTail⟩) =
      printDate d := by
    unfold parse_datetime_to_date to_date_str
    dsimp only
    rw [if_neg hne, hrz]
    unfold fromisoformat
    show (match fromisoformatL
        (⟨printDateL d ++ utcMidnightTail⟩ : String).data with
      | none => ""
      | some dt => printDate dt.date) = printDate d
    rw [show (⟨printDateL d ++ utcMidnightTail⟩ : String).data =
        printDateL d ++ utcMidnightTail from rfl,
      fromisoformatL_print_utc d hv]
  rw [hpdd, if_pos (printDate_ne_empty d)]
  unfold date_fromisoformat
  have hp : parseDateL (printDateL d) = some (d, []) := by
    have := parseDateL_print d hv []
    rwa [List.append_nil] at this
  rw [show (printDate d).data = printDateL d from rfl, hp]

theorem to_str_clean (s : String) (h : pyStrip s = s) : to_str (some s) = s :=
  h

/-- The identifier list built by `patient_to_fhir`, named for reuse. -/
def identBlock (pid ssn drv pp : String) : List PIdentifier :=
  (if pid ≠ "" then
     [{ system := some "urn:oid:2.16.840.1.113883.19.5", value := pid }]
   else []) ++
  (if ssn ≠ "" then
     [{ type := some ⟨[⟨some v2_0203, some "SS", some "Social Security Number"⟩], none⟩,
        value := ssn }]
   else []) ++
  (if drv ≠ "" then
     [{ type := some ⟨[⟨some v2_0203, some "DL", some "Driver's License"⟩], none⟩,
        value := drv }]
   else []) ++
  (if pp ≠ "" then
     [{ type := some ⟨[⟨some v2_0203, some "PPN", some "Passport Number"⟩], none⟩,
        value := pp }]
   else [])

theorem ptf_identifier (r : SyntheaPatient) : (patient_to_fhir r).identifier =
    identBlock (to_str r.id) (to_str r.ssn) (to_str r.drivers)
      (to_str r.passport) := rfl

theorem identBlock_extract (pid ssn drv pp : String) :
    _extract_identifier_value (identBlock pid ssn drv pp) "SS" = ssn ∧
    _extract_identifier_value (identBlock pid ssn drv pp) "DL" = drv ∧
    _extract_identifier_value (identBlock pid ssn drv pp) "PPN" = pp := by
  by_cases h1 : pid = "" <;> by_cases h2 : ssn = "" <;>
    by_cases h3 : drv = "" <;> by_cases h4 : pp = "" <;>
    simp [identBlock, _extract_identifier_value, List.findSome?_append,
      h1, h2, h3, h4]

/-- The name list built by `patient_to_fhir`, named for reuse. -/
def nameBlock (pfx first last suffix maiden : String) : List HumanName :=
  (if first ≠ "" ∨ last ≠ "" ∨ pfx ≠ "" ∨ suffix ≠ "" then
     [{ use := some "official",
        pfx := if pfx ≠ "" then [pfx] else [],
        given := if first ≠ "" then [first] else [],
        family := if last ≠ "" then some last else none,
        suffix := if suffix ≠ "" then [suffix] else [] }]
   else []) ++
  (if maiden ≠ "" then [{ use := some "maiden", family := some maiden }]
   else [])

theorem ptf_name (r : SyntheaPatient) : (patient_to_fhir r).name =
    nameBlock (to_str r.pfx) (to_str r.first) (to_str r.last)
      (to_str r.suffix) (to_str r.maiden) := rfl

theorem nameBlock_extract (pfx first last suffix maiden : String)
    (hfirst : first ≠ "") (hlast : last ≠ "") :
    _extract_name_part (nameBlock pfx first last suffix maiden)
      "official" "given" = first ∧
    _extract_name_part (nameBlock pfx first last suffix maiden)
      "official" "family" = last ∧
    _extract_name_part (nameBlock pfx first last suffix maiden)
      "official" "prefix" = pfx ∧
    _extract_name_part (nameBlock pfx first last suffix maiden)
      "official" "suffix" = suffix ∧
    _extract_maiden_name (nameBlock pfx first last suffix maiden) =
      maiden := by
  by_cases h1 : pfx = "" <;> by_cases h2 : suffix = "" <;>
    by_cases h3 : maiden = "" <;>
    simp [nameBlock, _extract_name_part, _extract_maiden_name, findName,
      hfirst, hlast, h1, h2, h3, List.find?_cons]

/-- The extension list built by `patient_to_fhir`, named for reuse. -/
def extBlock (race eth bp : String) : List Extension :=
  (if race ≠ "" then [⟨raceUrl, .nil, [⟨"text", .vstr race⟩]⟩] else []) ++
  (if eth ≠ "" then [⟨ethnicityUrl, .nil, [⟨"text", .vstr eth⟩]⟩] else []) ++
  (if bp ≠ "" then [⟨birthPlaceUrl, .vaddr bp, []⟩] else [])

theorem ptf_extension (r : SyntheaPatient) : (patient_to_fhir r).extension =
    extBlock (to_str r.race) (to_str r.ethnicity) (to_str r.birthplace) :=
  rfl

theorem extBlock_extract (race eth bp : String) (h1 : race ≠ "")
    (h2 : eth ≠ "") (h3 : bp ≠ "") :
    _extract_extension_text (extBlock race eth bp) raceUrl = race ∧
    _extract_extension_text (extBlock race eth bp) ethnicityUrl = eth ∧
    _extract_birthplace (extBlock race eth bp) = bp := by
  have hud1 : raceUrl ≠ ethnicityUrl := by decide
  have hud2 : raceUrl ≠ birthPlaceUrl := by decide
  have hud3 : ethnicityUrl ≠ birthPlaceUrl := by decide
  simp [extBlock, _extract_extension_text, _extract_birthplace, findExt,
    h1, h2, h3, List.find?_cons, hud1, hud2, hud3, Ne.symm hud1,
    Ne.symm hud2, Ne.symm hud3]

/-- The address list built by `patient_to_fhir`, named for reuse. -/
def addrBlock (address city state county zip : String)
    (lat lon : Option Rat) : List Address :=
  if address ≠ "" ∨ city ≠ "" ∨ state ≠ "" ∨ county ≠ "" ∨ zip ≠ "" ∨
      (lat.isSome ∧ lon.isSome) then
    [{ use := some "home",
       line := if address ≠ "" then [address] else [],
       city := if city ≠ "" then some city else none,
       state := if state ≠ "" then some state else none,
       district := if county ≠ "" then some county else none,
       postalCode := if zip ≠ "" then some zip else none,
       extension :=
         match lat, lon with
         | some la, some lo =>
           [⟨geolocationUrl, .nil,
             [⟨"latitude", .vdec (pyFloat la)⟩,
              ⟨"longitude", .vdec (pyFloat lo)⟩]⟩]
         | _, _ => [] }]
  else []

theorem ptf_address (r : SyntheaPatient) : (patient_to_fhir r).address =
    addrBlock (to_str r.address) (to_str r.city) (to_str r.state)
      (to_str r.county) (to_str r.zip) r.lat r.lon := rfl

theorem addrBlock_extract (address city state county zip : String)
    (lat lon : Option Rat) (haddr : address ≠ "") :
    _extract_address_part (addrBlock address city state county zip lat lon)
      "line" = address ∧
    _extract_address_part (addrBlock address city state county zip lat lon)
      "city" = city ∧
    _extract_address_part (addrBlock address city state county zip lat lon)
      "state" = state ∧
    _extract_address_part (addrBlock address city state county zip lat lon)
      "district" = county ∧
    _extract_address_part (addrBlock address city state county zip lat lon)
      "postalCode" = zip := by
  have hcond : address ≠ "" ∨ city ≠ "" ∨ state ≠ "" ∨ county ≠ "" ∨
      zip ≠ "" ∨ (lat.isSome ∧ lon.isSome) := Or.inl haddr
  by_cases h2 : city = "" <;> by_cases h3 : state = "" <;>
    by_cases h4 : county = "" <;> by_cases h5 : zip = "" <;>
    simp [addrBlock, _extract_address_part, hcond, haddr, h2, h3, h4, h5]

theorem addrBlock_geo (address city state county zip : String)
    (lat lon : Option Rat) (haddr : address ≠ "")
    (hgeo : (lat = none ∧ lon = none) ∨ (lat.isSome ∧ lon.isSome)) :
    _extract_geolocation (addrBlock address city state county zip lat lon) =
      (lat.map pyFloat, lon.map pyFloat) := by
  have hcond : address ≠ "" ∨ city ≠ "" ∨ state ≠ "" ∨ county ≠ "" ∨
      zip ≠ "" ∨ (lat.isSome ∧ lon.isSome) := Or.inl haddr
  rcases hgeo with ⟨rfl, rfl⟩ | ⟨hl, hlo⟩
  · simp [addrBlock, _extract_geolocation, hcond, haddr]
  · obtain ⟨la, rfl⟩ := Option.isSome_iff_exists.mp hl
    obtain ⟨lo, rfl⟩ := Option.isSome_iff_exists.mp hlo
    simp [addrBlock, _extract_geolocation, hcond, haddr, extDec,
      geolocationUrl]

theorem ptf_id (r : SyntheaPatient) : (patient_to_fhir r).id =
    (if to_str r.id ≠ "" then some (to_str r.id) else none) := rfl

theorem ptf_gender (r : SyntheaPatient) : (patient_to_fhir r).gender =
    map_gender (some (to_str r.gender)) := rfl

theorem ptf_marital (r : SyntheaPatient) : (patient_to_fhir r).maritalStatus =
    map_marital_status (some (to_str r.marital)) := rfl

theorem ptf_birthDate (r : SyntheaPatient) : (patient_to_fhir r).birthDate =
    (if to_str_date r.birthdate ≠ "" then
      format_date (some (to_str_date r.birthdate))
    else none) := rfl

theorem ptf_deceased (r : SyntheaPatient) :
    (patient_to_fhir r).deceasedDateTime =
      (if to_str_date r.deathdate ≠ "" then
        format_datetime (some (to_str_date r.deathdate))
      else none) := rfl

/-- `patient_to_synthea` written as a constructor application of its
field extractions (definitional). -/
theorem pts_all (x : FhirPatient) : patient_to_synthea x = SyntheaPatient.mk
    (orNone (x.id.getD ""))
    (parseFhirDateField x.birthDate)
    (parseFhirDateField x.deceasedDateTime)
    (some (pyOr (_extract_identifier_value x.identifier "SS")
      "000-00-0000"))
    (orNone (_extract_identifier_value x.identifier "DL"))
    (orNone (_extract_identifier_value x.identifier "PPN"))
    (orNone (_extract_name_part x.name "official" "prefix"))
    (some (pyOr (_extract_name_part x.name "official" "given") "Unknown"))
    (some (pyOr (_extract_name_part x.name "official" "family") "Unknown"))
    (orNone (_extract_name_part x.name "official" "suffix"))
    (orNone (_extract_maiden_name x.name))
    (_map_fhir_marital x.maritalStatus)
    (some (pyOr (_extract_extension_text x.extension raceUrl) "unknown"))
    (some (pyOr (_extract_extension_text x.extension ethnicityUrl)
      "unknown"))
    (some (_map_fhir_gender x.gender))
    (some (pyOr (_extract_birthplace x.extension) "Unknown"))
    (some (pyOr (_extract_address_part x.address "line") "Unknown"))
    (some (pyOr (_extract_address_part x.address "city") "Unknown"))
    (some (pyOr (_extract_address_part x.address "state") "Unknown"))
    (orNone (_extract_address_part x.address "district"))
    (orNone (_extract_address_part x.address "postalCode"))
    (_extract_geolocation x.address).1
    (_extract_geolocation x.address).2
    0 0 := rfl

theorem getD_if (s : String) :
    (if s ≠ "" then some s else none).getD "" = s := by
  by_cases h : s = "" <;> simp [h]

theorem orNone_to_str (f : Option String) (h : optClean f) :
    orNone (to_str f) = f := by
  match f, h with
  | none, _ => rfl
  | some s, ⟨hs, hn⟩ => simp [to_str_clean s hs, orNone, hn]

theorem reqClean_elim (f : Option String) (h : reqClean f) :
    ∃ s, f = some s ∧ pyStrip s = s ∧ s ≠ "" := by
  match f, h with
  | some s, ⟨h1, h2⟩ => exact ⟨s, rfl, h1, h2⟩

theorem to_str_ne_of_req (f : Option String) (h : reqClean f) :
    to_str f ≠ "" := by
  obtain ⟨s, rfl, h1, h2⟩ := reqClean_elim f h
  rw [to_str_clean s h1]
  exact h2

theorem pyOr_to_str_req (f : Option String) (dflt : String)
    (h : reqClean f) : some (pyOr (to_str f) dflt) = f := by
  obtain ⟨s, rfl, h1, h2⟩ := reqClean_elim f h
  rw [to_str_clean s h1]
  simp [pyOr, h2]

theorem rt_gender (g : Option String)
    (h : g = some "M" ∨ g = some "F") :
    some (_map_fhir_gender (map_gender (some (to_str g)))) = g := by
  rcases h with rfl | rfl <;> decide

theorem rt_marital (m : Option String)
    (h : m = none ∨ m = some "S" ∨ m = some "M" ∨ m = some "D" ∨
      m = some "W") :
    _map_fhir_marital (map_marital_status (some (to_str m))) = m := by
  rcases h with rfl | rfl | rfl | rfl | rfl <;> decide

theorem rt_birthdate (b : Option Date) (h : optValidDate b) :
    parseFhirDateField
      (if to_str_date b ≠ "" then format_date (some (to_str_date b))
       else none) = b := by
  match b, h with
  | none, _ => simp [to_str_date, parseFhirDateField]
  | some d, hv =>
    rw [show to_str_date (some d) = printDate d from rfl,
      if_pos (printDate_ne_empty d), format_date_print d hv,
      parseFhirDateField_print d hv]

theorem rt_deathdate (b : Option Date) (h : optValidDate b) :
    parseFhirDateField
      (if to_str_date b ≠ "" then format_datetime (some (to_str_date b))
       else none) = b := by
  match b, h with
  | none, _ => simp [to_str_date, parseFhirDateField]
  | some d, hv =>
    rw [show to_str_date (some d) = printDate d from rfl,
      if_pos (printDate_ne_empty d), format_datetime_print d hv,
      parseFhirDateField_print_dt d hv]

end FXS
